import Mathlib

/-!
# Verification of the accounting three-statement derivation pipeline

This file is a shallow embedding, in Lean 4, of the account-classification
and financial-statement-derivation core of the repository:

* `mapping.py`  — account-name normalization, the alias table, the accrued
  sub-rule, the account-number range table and the two-tier classifier;
* `excel_writer.py` — the per-year statement aggregator
  (`calculate_financial_statements`), the TB+GL merger with the Year-0
  opening-balance requirement (`calculate_3statements_from_tb_gl`), and the
  reconciliation checker (`compute_reconciliation_checks`).

Monetary amounts (Python floats) are modelled as rationals `ℚ`; Python
dictionaries are modelled as association lists with insertion-order-preserving
update (`setK` / `setY`), mirroring `dict.update`, `dict.setdefault` and
key assignment.  Fallible code (the `raise ValueError` for a missing
Year-0 snapshot) is modelled with `Except String`.
-/

namespace ThreeStmt

/-! ## Dictionary model

Python `dict` is modelled by an association list.  `setK` mirrors key
assignment `d[k] = v`: it replaces the value at the first occurrence of the
key, or appends a new binding at the end (Python dicts keep insertion
order).  `List.lookup` is the read operation. -/

/-- A Python `Dict[str, float]` holding line items of one year. -/
abbrev YearMap := List (String × ℚ)

/-- A Python `Dict[int, Dict[str, float]]` keyed by calendar year. -/
abbrev FinData := List (Int × YearMap)

/-- `d[k] = v` on an association list: replace the first binding of `k`,
else append at the end (Python dict insertion-order semantics). -/
def setK {α : Type} [BEq α] {β : Type} (m : List (α × β)) (k : α) (v : β) :
    List (α × β) :=
  match m with
  | [] => [(k, v)]
  | (k', v') :: rest => if k' == k then (k, v) :: rest else (k', v') :: setK rest k v

/-- `d.setdefault(k, v)`: insert only when the key is absent. -/
def setdefaultK {α : Type} [BEq α] {β : Type} (m : List (α × β)) (k : α) (v : β) :
    List (α × β) :=
  match m.lookup k with
  | some _ => m
  | none => setK m k v

/-- `d.get(k, dflt)` for numeric maps. -/
def getK (m : YearMap) (k : String) (dflt : ℚ) : ℚ :=
  (m.lookup k).getD dflt

/-- `d.update(other)`: assign every binding of `other` into `m`, in order. -/
def dictUpdate {α : Type} [BEq α] {β : Type} (m other : List (α × β)) :
    List (α × β) :=
  other.foldl (fun acc kv => setK acc kv.1 kv.2) m

/-- Keys of a dictionary, in insertion order. -/
def keysOf {α : Type} {β : Type} (m : List (α × β)) : List α :=
  m.map Prod.fst

/-- Year-level read `financial_data.get(y, \x7b\x7d)` (also used where the
source indexes directly, since those keys are always present there). -/
def getY (fd : FinData) (y : Int) : YearMap :=
  (fd.lookup y).getD []

/-- Year-level assignment `financial_data[y] = m`. -/
def setY (fd : FinData) (y : Int) (m : YearMap) : FinData :=
  setK fd y m

/-! ### Basic lookup lemmas for the dictionary model -/

theorem lookup_setK_self {α : Type} [BEq α] [LawfulBEq α] {β : Type}
    (m : List (α × β)) (k : α) (v : β) : (setK m k v).lookup k = some v := by
  induction m with
  | nil => simp [setK, List.lookup]
  | cons kv rest ih =>
    obtain ⟨k', v'⟩ := kv
    by_cases h : k' = k
    · subst h; simp [setK, List.lookup]
    · simp only [setK, beq_iff_eq, h, if_false, List.lookup]
      have : (k == k') = false := by simp [Ne.symm h]
      simp [this, ih]

theorem lookup_setK_ne {α : Type} [BEq α] [LawfulBEq α] {β : Type}
    (m : List (α × β)) (k k' : α) (v : β) (h : k' ≠ k) :
    (setK m k v).lookup k' = m.lookup k' := by
  have hkk : (k' == k) = false := by simp [h]
  induction m with
  | nil => simp [setK, List.lookup, hkk]
  | cons kv rest ih =>
    obtain ⟨a, b⟩ := kv
    by_cases ha : a = k
    · subst ha
      simp [setK, List.lookup, hkk]
    · have ha2 : (a == k) = false := by simp [ha]
      by_cases hb : k' = a
      · subst hb; simp [setK, ha2, List.lookup]
      · have hb2 : (k' == a) = false := by simp [hb]
        simp [setK, ha2, List.lookup, hb2, ih]

theorem lookup_setdefaultK_self {α : Type} [BEq α] [LawfulBEq α] {β : Type}
    (m : List (α × β)) (k : α) (v : β) :
    (setdefaultK m k v).lookup k = some ((m.lookup k).getD v) := by
  unfold setdefaultK
  cases h : m.lookup k with
  | some w => simp [h]
  | none => simp [h, lookup_setK_self]

theorem lookup_setdefaultK_ne {α : Type} [BEq α] [LawfulBEq α] {β : Type}
    (m : List (α × β)) (k k' : α) (v : β) (h : k' ≠ k) :
    (setdefaultK m k v).lookup k' = m.lookup k' := by
  unfold setdefaultK
  cases hm : m.lookup k with
  | some w => rfl
  | none => exact lookup_setK_ne m k k' v h

theorem keysOf_setK_mem {α : Type} [BEq α] [LawfulBEq α] {β : Type}
    (m : List (α × β)) (k : α) (v : β) (h : k ∈ keysOf m) :
    keysOf (setK m k v) = keysOf m := by
  induction m with
  | nil => simp [keysOf] at h
  | cons kv rest ih =>
    obtain ⟨a, b⟩ := kv
    by_cases ha : a = k
    · subst ha; simp [setK, keysOf]
    · have ha2 : (a == k) = false := by simp [ha]
      simp only [keysOf, List.map_cons, List.mem_cons] at h
      rcases h with h | h
      · exact absurd h.symm ha
      · have := ih h
        simp only [keysOf] at this
        simp [setK, ha2, keysOf, this]

/-! ## String helpers (mapping.py)

Python string operations used by the classifier, modelled over `List Char`.
`Char.toLower` matches Python `str.lower()` on the ASCII names involved. -/

/-- `s.lower()`. -/
def lowerStr (s : String) : String :=
  String.mk (s.data.map Char.toLower)

/-- Does `pat` occur at the head of `hay`?  (Helper for substring tests.) -/
def leadMatch : List Char → List Char → Bool
  | [], _ => true
  | _ :: _, [] => false
  | a :: pat, b :: hay => a == b && leadMatch pat hay

/-- Does `pat` occur contiguously inside `hay`?  Mirrors Python `pat in hay`
(in particular the empty pattern always matches). -/
def hasSubstr (pat : List Char) : List Char → Bool
  | [] => pat.isEmpty
  | b :: hay => leadMatch pat (b :: hay) || hasSubstr pat hay

/-- Python `sub in s` on strings. -/
def containsSub (s sub : String) : Bool :=
  hasSubstr sub.data s.data

/-- `s.strip()`: remove leading and trailing whitespace. -/
def stripStr (s : String) : String :=
  String.mk (((s.data.dropWhile Char.isWhitespace).reverse.dropWhile
    Char.isWhitespace).reverse)

/-- `re.sub(r'\s+', ' ', s)`: collapse each whitespace run to one space.
The flag records whether the previous character was whitespace. -/
def collapseWSAux : Bool → List Char → List Char
  | _, [] => []
  | prevWS, c :: cs =>
    if c.isWhitespace then
      (if prevWS then collapseWSAux true cs else ' ' :: collapseWSAux true cs)
    else c :: collapseWSAux false cs

/-- `s.replace('&', 'and')`. -/
def replaceAmp : List Char → List Char
  | [] => []
  | c :: cs => if c == '&' then 'a' :: 'n' :: 'd' :: replaceAmp cs else c :: replaceAmp cs

/-! ## mapping.py — account classification -/

/-- `DEFAULT_ACCOUNT_RANGES` (mapping.py, lines 14-49), in source order:
category, inclusive lower bound, inclusive upper bound. -/
def DEFAULT_ACCOUNT_RANGES : List (String × Int × Int) :=
  [ ("cash", 1000, 1099),
    ("accounts_receivable", 1100, 1199),
    ("inventory", 1200, 1299),
    ("prepaid_expenses", 1300, 1349),
    ("other_current_assets", 1350, 1499),
    ("ppe_gross", 1500, 1599),
    ("accumulated_depreciation", 1590, 1599),
    ("other_fixed_assets", 1600, 1999),
    ("accounts_payable", 2000, 2099),
    ("accrued_payroll", 2100, 2149),
    ("deferred_revenue", 2150, 2249),
    ("interest_payable", 2250, 2299),
    ("other_current_liabilities", 2300, 2449),
    ("income_taxes_payable", 2450, 2499),
    ("long_term_debt", 2500, 2999),
    ("common_stock", 3000, 3099),
    ("retained_earnings", 3100, 3199),
    ("dividends", 3200, 3999),
    ("revenue", 4000, 4999),
    ("cogs", 5000, 5099),
    ("distribution_expenses", 5100, 5199),
    ("marketing_admin", 5200, 5299),
    ("research_dev", 5300, 5349),
    ("depreciation_expense", 5350, 5399),
    ("other_opex", 5400, 5999),
    ("interest_expense", 6000, 6099),
    ("tax_expense", 6100, 6999) ]

/-- `ACCOUNT_NAME_ALIASES` (mapping.py, lines 53-165), in source order. -/
def ACCOUNT_NAME_ALIASES : List (String × List String) :=
  [ ("cash",
     ["cash", "cash and cash equivalents", "cash equivalents",
      "bank", "petty cash", "cash on hand"]),
    ("accounts_receivable",
     ["accounts receivable", "a/r", "ar", "trade receivable",
      "trade and other receivables", "receivables", "debtors"]),
    ("inventory",
     ["inventory", "inventories", "stock", "merchandise",
      "finished goods", "raw materials", "work in process", "wip"]),
    ("prepaid_expenses",
     ["prepaid", "prepaid expenses", "prepayments", "deferred expenses"]),
    ("other_current_assets",
     ["other current assets", "current assets - other",
      "deposits", "advances"]),
    ("ppe_gross",
     ["property plant and equipment", "ppe", "pp&e", "fixed assets",
      "property, plant & equipment", "capital assets", "plant and equipment",
      "property and equipment", "equipment", "machinery", "buildings",
      "land and buildings", "furniture", "fixtures", "vehicles"]),
    ("accumulated_depreciation",
     ["accumulated depreciation", "accumulated depr", "acc depreciation",
      "depreciation", "amortization"]),
    ("accounts_payable",
     ["accounts payable", "a/p", "ap", "trade payable",
      "trade payables", "payables", "creditors"]),
    ("accrued_payroll",
     ["accrued payroll", "accrued wages", "accrued salaries",
      "payroll payable", "wages payable", "salaries payable",
      "employee compensation", "accrued compensation", "bonus accrual"]),
    ("deferred_revenue",
     ["deferred revenue", "unearned revenue", "deferred income",
      "contract liabilities", "customer deposits", "advance payments",
      "prepayments from customers"]),
    ("interest_payable",
     ["interest payable", "accrued interest", "interest accrual"]),
    ("other_current_liabilities",
     ["other current liabilities", "accrued liabilities",
      "accrued expenses", "other accruals", "current liabilities - other"]),
    ("income_taxes_payable",
     ["income taxes payable", "income tax payable", "tax payable",
      "taxes payable", "current tax liability"]),
    ("long_term_debt",
     ["long-term debt", "long term debt", "notes payable",
      "term loan", "revolver", "loan payable", "borrowings",
      "bank loan", "debt"]),
    ("common_stock",
     ["common stock", "share capital", "paid-in capital",
      "additional paid-in capital", "apic", "contributed capital",
      "common stock and additional paid-in capital"]),
    ("retained_earnings",
     ["retained earnings", "accumulated earnings",
      "accumulated profits", "earnings retained"]),
    ("dividends",
     ["dividends", "dividend", "dividends declared",
      "common dividends", "dividend payable"]),
    ("revenue",
     ["revenue", "revenues", "sales", "income", "turnover",
      "product revenue", "service revenue", "net sales"]),
    ("cogs",
     ["cost of goods sold", "cogs", "cost of sales",
      "cost of revenue", "direct costs"]),
    ("distribution_expenses",
     ["distribution", "distribution expenses", "shipping",
      "freight", "delivery", "logistics"]),
    ("marketing_admin",
     ["marketing", "marketing and administration", "sg&a",
      "selling general and administrative", "admin", "administrative",
      "general and administrative", "overhead"]),
    ("research_dev",
     ["research and development", "r&d", "research", "development"]),
    ("depreciation_expense",
     ["depreciation expense", "depreciation", "amortization expense",
      "depr expense", "amort expense"]),
    ("interest_expense",
     ["interest expense", "interest", "finance charges",
      "interest on debt", "borrowing costs"]),
    ("tax_expense",
     ["income tax expense", "tax expense", "taxes",
      "provision for income taxes", "current tax", "income taxes"]) ]

/-- The keywords of `classify_accrued_liability` (mapping.py, line 177). -/
def payrollKeywords : List String :=
  ["payroll", "wage", "salary", "bonus", "compensation"]

/-- `classify_accrued_liability` (mapping.py, lines 169-183): the keywords
are searched in the raw account name lowercased (not the normalized name). -/
def classifyAccruedLiability (accountName : String) : String :=
  if payrollKeywords.any (fun kw => containsSub (lowerStr accountName) kw) then
    "accrued_payroll"
  else
    "other_current_liabilities"

/-- `normalize_account_name` (mapping.py, lines 186-200): lowercase, strip,
collapse whitespace runs, remove commas and periods, replace `&` by `and`. -/
def normalizeAccountName (name : String) : String :=
  let n := stripStr (lowerStr name)
  let n := String.mk (collapseWSAux false n.data)
  let n := String.mk (n.data.filter (fun c => c != ','))
  let n := String.mk (n.data.filter (fun c => c != '.'))
  String.mk (replaceAmp n.data)

/-- The alias scan of `map_account_by_name` (mapping.py, lines 218-221):
first category, in table order, one of whose aliases occurs in the
normalized name or contains it. -/
def scanAliases (normalized : String) :
    List (String × List String) → Option String
  | [] => none
  | (cat, aliases) :: rest =>
    if aliases.any (fun a =>
        containsSub normalized (lowerStr a) || containsSub (lowerStr a) normalized) then
      some cat
    else scanAliases normalized rest

/-- `map_account_by_name` (mapping.py, lines 203-223).  `none` input models a
NaN account name. -/
def mapAccountByName (accountName : Option String) : Option String :=
  match accountName with
  | none => none
  | some nm =>
    let normalized := normalizeAccountName nm
    if containsSub normalized "accrued" then some (classifyAccruedLiability nm)
    else scanAliases normalized ACCOUNT_NAME_ALIASES

/-- The range scan of `map_account_by_range`: first category, in table order,
whose inclusive range contains the account number. -/
def rangeScan : List (String × Int × Int) → Int → Option String
  | [], _ => none
  | (cat, lo, hi) :: rest, n =>
    if lo ≤ n ∧ n ≤ hi then some cat else rangeScan rest n

/-- `map_account_by_range` (mapping.py, lines 226-241).  `none` account
number models NaN; `customRanges = none` selects `DEFAULT_ACCOUNT_RANGES`. -/
def mapAccountByRange (accountNumber : Option Int)
    (customRanges : Option (List (String × Int × Int))) : Option String :=
  match accountNumber with
  | none => none
  | some n => rangeScan (customRanges.getD DEFAULT_ACCOUNT_RANGES) n

/-- The per-row classification of `map_accounts` (mapping.py, lines 244-280):
name-based matching first, then range-based fallback for unmapped rows, then
the sentinel `unclassified`. -/
def mapAccount (accountName : Option String) (accountNumber : Option Int)
    (customRanges : Option (List (String × Int × Int))) : String :=
  match mapAccountByName accountName with
  | some c => c
  | none =>
    match mapAccountByRange accountNumber customRanges with
    | some c => c
    | none => "unclassified"

/-! ## Category sets for the classifier claims -/

/-- Every category name reachable through `mapAccount` with the default
ranges: the 25 alias-table categories, the two range-only categories
`other_fixed_assets` and `other_opex`, and the sentinel. -/
def closedCategorySet : List String :=
  [ "cash", "accounts_receivable", "inventory", "prepaid_expenses",
    "other_current_assets", "ppe_gross", "accumulated_depreciation",
    "other_fixed_assets", "accounts_payable", "accrued_payroll",
    "deferred_revenue", "interest_payable", "other_current_liabilities",
    "income_taxes_payable", "long_term_debt", "common_stock",
    "retained_earnings", "dividends", "revenue", "cogs",
    "distribution_expenses", "marketing_admin", "research_dev",
    "depreciation_expense", "other_opex", "interest_expense",
    "tax_expense", "unclassified" ]

/-- The category values enumerated by the specification for the FSLI
category set (spec §3, "fixed closed set"): 25 named categories plus the
sentinel. -/
def specEnumeratedCategories : List String :=
  [ "cash", "accounts_receivable", "inventory", "prepaid_expenses",
    "other_current_assets", "ppe_gross", "accumulated_depreciation",
    "accounts_payable", "accrued_payroll", "deferred_revenue",
    "interest_payable", "other_current_liabilities", "income_taxes_payable",
    "long_term_debt", "common_stock", "retained_earnings", "dividends",
    "revenue", "cogs", "distribution_expenses", "marketing_admin",
    "research_dev", "depreciation_expense", "interest_expense",
    "tax_expense", "unclassified" ]

theorem scanAliases_mem (n : String) (t : List (String × List String))
    (c : String) (h : scanAliases n t = some c) : c ∈ keysOf t := by
  induction t with
  | nil => simp [scanAliases] at h
  | cons p rest ih =>
    obtain ⟨cat, aliases⟩ := p
    by_cases hc : (aliases.any (fun a =>
        containsSub n (lowerStr a) || containsSub (lowerStr a) n)) = true
    · simp only [scanAliases, hc, if_true, Option.some.injEq] at h
      simp [keysOf, h]
    · simp only [scanAliases, hc, if_false] at h
      simp [keysOf]
      right
      have := ih h
      simpa [keysOf] using this

theorem rangeScan_mem (t : List (String × Int × Int)) (n : Int)
    (c : String) (h : rangeScan t n = some c) : c ∈ keysOf t := by
  induction t with
  | nil => simp [rangeScan] at h
  | cons p rest ih =>
    obtain ⟨cat, lo, hi⟩ := p
    by_cases hc : lo ≤ n ∧ n ≤ hi
    · simp only [rangeScan] at h
      rw [if_pos hc] at h
      simp only [Option.some.injEq] at h
      simp [keysOf, h]
    · simp only [rangeScan] at h
      rw [if_neg hc] at h
      simp only [keysOf, List.map_cons, List.mem_cons]
      right
      have := ih h
      simpa [keysOf] using this

/-- **C6**: whenever the normalized account name contains the substring
"accrued", classification is decided by the accrued sub-rule alone — it
returns `accrued_payroll` exactly when the (lowercased) name contains one of
the payroll keywords and `other_current_liabilities` otherwise — regardless
of the account number and of any custom ranges, so the rule takes strict
precedence over alias matching and the numeric-range fallback. -/
theorem accrued_name_rule_precedence (nm : String) (num : Option Int)
    (custom : Option (List (String × Int × Int)))
    (h : containsSub (normalizeAccountName nm) "accrued" = true) :
    mapAccount (some nm) num custom =
      (if payrollKeywords.any (fun kw => containsSub (lowerStr nm) kw)
       then "accrued_payroll" else "other_current_liabilities") := by
  simp [mapAccount, mapAccountByName, h, classifyAccruedLiability]

/-- Witness for **C6**: the account named "Accrued Payroll" with number 2600,
which lies in the `long_term_debt` range 2500-2999, classifies as
`accrued_payroll`. -/
theorem accrued_name_rule_precedence_witness :
    mapAccount (some "Accrued Payroll") (some 2600) none = "accrued_payroll" ∧
    (2500 ≤ (2600 : Int) ∧ (2600 : Int) ≤ 2999) :=
  ⟨(accrued_name_rule_precedence "Accrued Payroll" (some 2600) none
      (by decide)).trans (by decide),
   by decide⟩

/-- **C7 (counterexample)**: classification does not always land in the
specification's enumerated category set: an account with no usable name and
number 1600 classifies, through the default range fallback, as
`other_fixed_assets`, which the specification's closed set does not
contain. -/
theorem classifier_range_outside_spec_set :
    mapAccount none (some 1600) none = "other_fixed_assets" ∧
    "other_fixed_assets" ∉ specEnumeratedCategories := by
  exact ⟨by decide, by decide⟩

/-- **C7 (amended)**: classification always returns a member of the fixed
closed 28-value set (the 25 alias categories, `other_fixed_assets` and
`other_opex` from the default range table, and the sentinel
`unclassified`), extended by the keys of the custom range table when one is
supplied. -/
theorem classifier_closed_category_set (name : Option String)
    (num : Option Int) (custom : Option (List (String × Int × Int))) :
    mapAccount name num custom ∈
      closedCategorySet ++ keysOf (custom.getD []) := by
  unfold mapAccount
  cases hn : mapAccountByName name with
  | some c =>
    have hc : c ∈ closedCategorySet := by
      cases name with
      | none => simp [mapAccountByName] at hn
      | some nm =>
        simp only [mapAccountByName] at hn
        by_cases ha : containsSub (normalizeAccountName nm) "accrued" = true
        · rw [if_pos ha] at hn
          simp only [Option.some.injEq] at hn
          subst hn
          unfold classifyAccruedLiability
          split <;> decide
        · rw [if_neg ha] at hn
          have hmem := scanAliases_mem _ _ _ hn
          have hsub : ∀ x ∈ keysOf ACCOUNT_NAME_ALIASES,
              x ∈ closedCategorySet := by decide
          exact hsub c hmem
    exact List.mem_append_left _ hc
  | none =>
    cases hr : mapAccountByRange num custom with
    | some c =>
      cases num with
      | none => simp [mapAccountByRange] at hr
      | some nval =>
        simp only [mapAccountByRange] at hr
        cases custom with
        | none =>
          have hmem := rangeScan_mem _ _ _ hr
          have hsub : ∀ x ∈ keysOf DEFAULT_ACCOUNT_RANGES,
              x ∈ closedCategorySet := by decide
          exact List.mem_append_left _ (hsub c hmem)
        | some l =>
          have hmem := rangeScan_mem _ _ _ hr
          exact List.mem_append_right _ (by simpa using hmem)
    | none => exact List.mem_append_left _ (by decide)

theorem rangeScan_cons (cat : String) (lo hi : Int)
    (rest : List (String × Int × Int)) (n : Int) :
    rangeScan ((cat, lo, hi) :: rest) n =
      if lo ≤ n ∧ n ≤ hi then some cat else rangeScan rest n := rfl

theorem rangeScan_append (t1 t2 : List (String × Int × Int)) (n : Int) :
    rangeScan (t1 ++ t2) n =
      (match rangeScan t1 n with
       | some c => some c
       | none => rangeScan t2 n) := by
  induction t1 with
  | nil => simp [rangeScan]
  | cons e t ih =>
    obtain ⟨c, lo, hi⟩ := e
    by_cases hc : lo ≤ n ∧ n ≤ hi
    · rw [List.cons_append, rangeScan_cons, if_pos hc, rangeScan_cons, if_pos hc]
    · rw [List.cons_append, rangeScan_cons, if_neg hc, rangeScan_cons, if_neg hc, ih]

theorem rangeScan_eq_none_iff (t : List (String × Int × Int)) (n : Int) :
    rangeScan t n = none ↔ ∀ e ∈ t, ¬(e.2.1 ≤ n ∧ n ≤ e.2.2) := by
  induction t with
  | nil => simp [rangeScan]
  | cons e t ih =>
    obtain ⟨c, lo, hi⟩ := e
    rw [rangeScan_cons]
    by_cases hc : lo ≤ n ∧ n ≤ hi
    · rw [if_pos hc]
      simp only [List.mem_cons]
      constructor
      · intro h; exact absurd h (by simp)
      · intro h; exact absurd hc (h (c, lo, hi) (Or.inl rfl))
    · rw [if_neg hc, ih]
      constructor
      · intro h e he
        rcases List.mem_cons.mp he with he | he
        · subst he; exact hc
        · exact h e he
      · intro h e he; exact h e (List.mem_cons_of_mem _ he)

/-- The first six entries of the default range table (up to `ppe_gross`). -/
def rangesBeforeAccDep : List (String × Int × Int) :=
  [ ("cash", 1000, 1099),
    ("accounts_receivable", 1100, 1199),
    ("inventory", 1200, 1299),
    ("prepaid_expenses", 1300, 1349),
    ("other_current_assets", 1350, 1499),
    ("ppe_gross", 1500, 1599) ]

/-- The entries of the default range table after `accumulated_depreciation`. -/
def rangesAfterAccDep : List (String × Int × Int) :=
  [ ("other_fixed_assets", 1600, 1999),
    ("accounts_payable", 2000, 2099),
    ("accrued_payroll", 2100, 2149),
    ("deferred_revenue", 2150, 2249),
    ("interest_payable", 2250, 2299),
    ("other_current_liabilities", 2300, 2449),
    ("income_taxes_payable", 2450, 2499),
    ("long_term_debt", 2500, 2999),
    ("common_stock", 3000, 3099),
    ("retained_earnings", 3100, 3199),
    ("dividends", 3200, 3999),
    ("revenue", 4000, 4999),
    ("cogs", 5000, 5099),
    ("distribution_expenses", 5100, 5199),
    ("marketing_admin", 5200, 5299),
    ("research_dev", 5300, 5349),
    ("depreciation_expense", 5350, 5399),
    ("other_opex", 5400, 5999),
    ("interest_expense", 6000, 6099),
    ("tax_expense", 6100, 6999) ]

theorem default_ranges_split :
    DEFAULT_ACCOUNT_RANGES =
      rangesBeforeAccDep ++
        ("accumulated_depreciation", 1590, 1599) :: rangesAfterAccDep := rfl

/-- The first five entries of the default range table (before `ppe_gross`). -/
def rangesBeforePpe : List (String × Int × Int) :=
  [ ("cash", 1000, 1099),
    ("accounts_receivable", 1100, 1199),
    ("inventory", 1200, 1299),
    ("prepaid_expenses", 1300, 1349),
    ("other_current_assets", 1350, 1499) ]

theorem default_ranges_split2 :
    DEFAULT_ACCOUNT_RANGES =
      rangesBeforePpe ++ ("ppe_gross", 1500, 1599) ::
        ("accumulated_depreciation", 1590, 1599) :: rangesAfterAccDep := rfl

theorem rangeScan_append_none (t1 t2 : List (String × Int × Int)) (n : Int)
    (h : rangeScan t1 n = none) : rangeScan (t1 ++ t2) n = rangeScan t2 n := by
  rw [rangeScan_append, h]

/-- **C9**: with the default ranges, the numeric fallback never returns
`accumulated_depreciation` for any account number — its range 1590-1599 is
shadowed by the earlier `ppe_gross` entry 1500-1599, so every number in
1590-1599 maps to `ppe_gross`. -/
theorem range_never_accumulated_depreciation (n : Int) :
    mapAccountByRange (some n) none ≠ some "accumulated_depreciation" ∧
    (1590 ≤ n → n ≤ 1599 → mapAccountByRange (some n) none = some "ppe_gross") := by
  constructor
  · intro h
    simp only [mapAccountByRange, Option.getD_none] at h
    rw [default_ranges_split, rangeScan_append] at h
    cases hpre : rangeScan rangesBeforeAccDep n with
    | some c =>
      rw [hpre] at h
      simp only [Option.some.injEq] at h
      have hmem := rangeScan_mem _ _ _ hpre
      rw [h] at hmem
      revert hmem
      decide
    | none =>
      rw [hpre] at h
      have hnoppe := (rangeScan_eq_none_iff _ n).mp hpre
        ("ppe_gross", 1500, 1599) (by decide)
      simp only at hnoppe
      rw [rangeScan_cons, if_neg (by omega)] at h
      have hmem := rangeScan_mem _ _ _ h
      revert hmem
      decide
  · intro h1 h2
    simp only [mapAccountByRange, Option.getD_none]
    rw [default_ranges_split2]
    have hpre : rangeScan rangesBeforePpe n = none := by
      rw [rangeScan_eq_none_iff]
      intro e he
      fin_cases he <;> simp <;> omega
    rw [rangeScan_append_none _ _ _ hpre, rangeScan_cons,
      if_pos ⟨by omega, h2⟩]

/-- Witness for **C9** at the concrete account number 1595, which lies in
both the `ppe_gross` and the `accumulated_depreciation` default ranges. -/
theorem range_never_accumulated_depreciation_witness :
    mapAccountByRange (some 1595) none = some "ppe_gross" ∧
    mapAccountByRange (some 1595) none ≠ some "accumulated_depreciation" :=
  ⟨(range_never_accumulated_depreciation 1595).2 (by decide) (by decide),
   (range_never_accumulated_depreciation 1595).1⟩

/-! ## excel_writer.py — statement aggregation, merger, reconciliation

A ledger row of the date-filtered input.  `TxnDate` is modelled by the pair
(`year`, `sub`): `year` is the calendar year of the date and `sub` orders the
dates within one year, so the latest `TxnDate` of a year is the row with the
greatest `sub` there.  Rows whose dates fail to parse are dropped by the
source before any computation, so the model receives only valid rows. -/
structure TxnRow where
  year : Int
  sub : Nat
  category : String
  debit : ℚ
  credit : ℚ

/-- Insert into a strictly-sorted list, skipping duplicates. -/
def insertSorted (x : Int) : List Int → List Int
  | [] => [x]
  | y :: ys =>
    if x < y then x :: y :: ys
    else if x = y then y :: ys
    else y :: insertSorted x ys

/-- `sorted(set(l))`. -/
def sortedDedup (l : List Int) : List Int :=
  l.foldr insertSorted []

/-- The inner `sum_category` of `calculate_financial_statements`
(excel_writer.py, lines 225-235): filter the year's rows by category, then
sum debits, credits, or the net debit minus credit. -/
def sum_category (year_data : List TxnRow) (category : String)
    (debit_credit : String) : ℚ :=
  let cat_data := year_data.filter (fun r => r.category == category)
  if debit_credit == "debit" then (cat_data.map (·.debit)).sum
  else if debit_credit == "credit" then (cat_data.map (·.credit)).sum
  else (cat_data.map (·.debit)).sum - (cat_data.map (·.credit)).sum

/-- Latest `TxnDate` position within a year group (`year_data['TxnDate'].max()`). -/
def maxSub (rows : List TxnRow) : Nat :=
  rows.foldl (fun a r => max a r.sub) 0

/-- The year group of `calculate_financial_statements` (excel_writer.py,
lines 218-223): all rows of year `y`; in trial-balance mode only the rows
carrying the latest date within the year. -/
def yearDataOf (rows : List TxnRow) (is_trial_balance : Bool) (y : Int) :
    List TxnRow :=
  let yd := rows.filter (fun r => r.year == y)
  if is_trial_balance then yd.filter (fun r => r.sub == maxSub yd) else yd

/-- One year's statement map (excel_writer.py, lines 237-306): the 25
line-item keys written by `calculate_financial_statements` for every year,
in source order. -/
def statementFor (rows : List TxnRow) (is_trial_balance : Bool) (y : Int) :
    YearMap :=
  let yd := yearDataOf rows is_trial_balance y
  let revenue := sum_category yd "revenue" "credit"
  let cogs := sum_category yd "cogs" "debit"
  let distribution_expenses := sum_category yd "distribution_expenses" "debit"
  let marketing_admin := sum_category yd "marketing_admin" "debit"
  let research_dev := sum_category yd "research_dev" "debit"
  let depreciation_expense := sum_category yd "depreciation_expense" "debit"
  let interest_expense := sum_category yd "interest_expense" "debit"
  let tax_expense := sum_category yd "tax_expense" "debit"
  let gross_profit := revenue - cogs
  let total_opex := distribution_expenses + marketing_admin + research_dev +
    depreciation_expense
  let ebit := gross_profit - total_opex
  let ebt := ebit - interest_expense
  let net_income := ebt - tax_expense
  let cash := sum_category yd "cash" "both"
  let accounts_receivable := sum_category yd "accounts_receivable" "both"
  let inventory := sum_category yd "inventory" "both"
  let prepaid_expenses := sum_category yd "prepaid_expenses" "both"
  let other_current_assets := sum_category yd "other_current_assets" "both"
  let ppe_gross := sum_category yd "ppe_gross" "both"
  let accumulated_depreciation := |sum_category yd "accumulated_depreciation" "both"|
  let accounts_payable := |sum_category yd "accounts_payable" "both"|
  let accrued_payroll := |sum_category yd "accrued_payroll" "both"|
  let deferred_revenue := |sum_category yd "deferred_revenue" "both"|
  let interest_payable := |sum_category yd "interest_payable" "both"|
  let other_current_liabilities := |sum_category yd "other_current_liabilities" "both"|
  let income_taxes_payable := |sum_category yd "income_taxes_payable" "both"|
  let long_term_debt := |sum_category yd "long_term_debt" "both"|
  let common_stock := |sum_category yd "common_stock" "both"|
  let retained_earnings := |sum_category yd "retained_earnings" "both"|
  [ ("revenue", revenue),
    ("cogs", cogs),
    ("distribution_expenses", distribution_expenses),
    ("marketing_admin", marketing_admin),
    ("research_dev", research_dev),
    ("depreciation_expense", depreciation_expense),
    ("interest_expense", interest_expense),
    ("tax_expense", tax_expense),
    ("net_income", net_income),
    ("cash", cash),
    ("accounts_receivable", accounts_receivable),
    ("inventory", inventory),
    ("prepaid_expenses", prepaid_expenses),
    ("other_current_assets", other_current_assets),
    ("ppe_gross", ppe_gross),
    ("accumulated_depreciation", accumulated_depreciation),
    ("accounts_payable", accounts_payable),
    ("accrued_payroll", accrued_payroll),
    ("deferred_revenue", deferred_revenue),
    ("interest_payable", interest_payable),
    ("other_current_liabilities", other_current_liabilities),
    ("income_taxes_payable", income_taxes_payable),
    ("long_term_debt", long_term_debt),
    ("common_stock", common_stock),
    ("retained_earnings", retained_earnings) ]

/-- The generic year-pair loop shape shared by the cash-flow augmentation
passes: for each year of `ys` (with running predecessor, starting at
`prev`), replace the year's map by `f` applied to the year's current map and
the predecessor's current map. -/
def pairLoop (f : YearMap → YearMap → YearMap) (fd : FinData) (prev : Int) :
    List Int → FinData
  | [] => fd
  | y :: ys => pairLoop f (setY fd y (f (getY fd y) (getY fd prev))) y ys

/-- The per-pair update of the legacy delta pass (excel_writer.py, lines
310-345): the thirteen cash-flow driver keys assigned by
`financial_data[y].update(...)`, in source order. -/
def legacyDeltaBody (cur pri : YearMap) : YearMap :=
  dictUpdate cur
    [ ("delta_ar", -(getK cur "accounts_receivable" 0 - getK pri "accounts_receivable" 0)),
      ("delta_inventory", -(getK cur "inventory" 0 - getK pri "inventory" 0)),
      ("delta_prepaid", -(getK cur "prepaid_expenses" 0 - getK pri "prepaid_expenses" 0)),
      ("delta_other_current_assets", -(getK cur "other_current_assets" 0 - getK pri "other_current_assets" 0)),
      ("delta_ap", getK cur "accounts_payable" 0 - getK pri "accounts_payable" 0),
      ("delta_accrued_payroll", getK cur "accrued_payroll" 0 - getK pri "accrued_payroll" 0),
      ("delta_deferred_revenue", getK cur "deferred_revenue" 0 - getK pri "deferred_revenue" 0),
      ("delta_interest_payable", getK cur "interest_payable" 0 - getK pri "interest_payable" 0),
      ("delta_other_current_liabilities", getK cur "other_current_liabilities" 0 - getK pri "other_current_liabilities" 0),
      ("delta_income_taxes_payable", getK cur "income_taxes_payable" 0 - getK pri "income_taxes_payable" 0),
      ("delta_debt", getK cur "long_term_debt" 0 - getK pri "long_term_debt" 0),
      ("capex", -(getK cur "ppe_gross" 0 - getK pri "ppe_gross" 0)),
      ("stock_issuance", getK cur "common_stock" 0 - getK pri "common_stock" 0) ]

/-- `calculate_financial_statements` (excel_writer.py, lines 194-347): one
statement map per distinct year of the input, with the legacy delta pass
applied to consecutive year pairs when at least two years are present. -/
def calculate_financial_statements (rows : List TxnRow)
    (is_trial_balance : Bool) : FinData :=
  let years := sortedDedup (rows.map (·.year))
  let fd : FinData := years.map (fun y => (y, statementFor rows is_trial_balance y))
  match years with
  | [] => fd
  | y0 :: rest => pairLoop legacyDeltaBody fd y0 rest

/-! ### calculate_3statements_from_tb_gl (excel_writer.py, lines 351-465) -/

/-- The Income-Statement keys pulled from GL (excel_writer.py, lines 391-394). -/
def is_keys : List String :=
  [ "revenue", "cogs", "distribution_expenses", "marketing_admin",
    "research_dev", "depreciation_expense", "interest_expense",
    "tax_expense", "net_income" ]

/-- The Balance-Sheet keys guaranteed for every output year
(excel_writer.py, lines 408-414). -/
def bs_keys : List String :=
  [ "cash", "accounts_receivable", "inventory", "prepaid_expenses",
    "other_current_assets", "ppe_gross", "accumulated_depreciation",
    "accounts_payable", "accrued_payroll", "deferred_revenue",
    "interest_payable", "other_current_liabilities", "income_taxes_payable",
    "long_term_debt", "common_stock", "retained_earnings" ]

/-- `tb_fin` (excel_writer.py, line 368): `none` models a `None` dataframe. -/
def tbFinOf (tb_df : Option (List TxnRow)) : FinData :=
  match tb_df with
  | some df => calculate_financial_statements df true
  | none => []

/-- `gl_fin` (excel_writer.py, line 369). -/
def glFinOf (gl_df : Option (List TxnRow)) : FinData :=
  match gl_df with
  | some df => calculate_financial_statements df false
  | none => []

/-- `all_years` (excel_writer.py, line 371). -/
def allYearsOf (tb_df gl_df : Option (List TxnRow)) : List Int :=
  sortedDedup (keysOf (tbFinOf tb_df) ++ keysOf (glFinOf gl_df))

/-- `stmt_years` (excel_writer.py, lines 375-376): the latest
`statement_years` years of `all_years` when enough are present (the Python
slice `l[-0:]` is the whole list), otherwise all of them. -/
def stmtYearsOf (tb_df gl_df : Option (List TxnRow)) (statement_years : Nat) :
    List Int :=
  let ay := allYearsOf tb_df gl_df
  if statement_years ≤ ay.length then
    (if statement_years = 0 then ay else ay.drop (ay.length - statement_years))
  else ay

/-- `year0` (excel_writer.py, lines 379-380). -/
def year0Of (tb_df gl_df : Option (List TxnRow)) (statement_years : Nat) : Int :=
  (stmtYearsOf tb_df gl_df statement_years).headD 0 - 1

/-- `years_out` (excel_writer.py, line 388). -/
def yearsOutOf (tb_df gl_df : Option (List TxnRow)) (statement_years : Nat) :
    List Int :=
  year0Of tb_df gl_df statement_years :: stmtYearsOf tb_df gl_df statement_years

/-- One year of the merge loop (excel_writer.py, lines 397-405): start from
the TB statement for the year; statement years additionally overlay the nine
Income-Statement keys with the GL values, defaulting to 0. -/
def mergeYearMap (tbFin glFin : FinData) (stmt : List Int) (y : Int) : YearMap :=
  let base := dictUpdate [] (getY tbFin y)
  if y ∈ stmt then
    dictUpdate base (is_keys.map (fun k => (k, getK (getY glFin y) k 0)))
  else base

/-- The merge loop over `years_out` (excel_writer.py, lines 397-405). -/
def mergeLoop (tbFin glFin : FinData) (stmt : List Int) :
    List Int → FinData → FinData
  | [], acc => acc
  | y :: ys, acc =>
    mergeLoop tbFin glFin stmt ys (setY acc y (mergeYearMap tbFin glFin stmt y))

/-- `for k in ks: m.setdefault(k, 0.0)`. -/
def ensureKeys (m : YearMap) (ks : List String) : YearMap :=
  ks.foldl (fun acc k => setdefaultK acc k 0) m

/-- The ensure-required-keys loop (excel_writer.py, lines 415-425); the
Income-Statement block appears twice in the source, which is idempotent but
mirrored here. -/
def defaultsLoop (stmt : List Int) : List Int → FinData → FinData
  | [], acc => acc
  | y :: ys, acc =>
    let m := ensureKeys (getY acc y) bs_keys
    let m := if y ∈ stmt then ensureKeys (ensureKeys m is_keys) is_keys else m
    defaultsLoop stmt ys (setY acc y m)

/-- The dividends roll-forward body (excel_writer.py, lines 428-434):
`dividends = max(0, RE_begin + net_income - RE_end)` written into the
current year. -/
def divBody (cur pri : YearMap) : YearMap :=
  let re_begin := getK pri "retained_earnings" 0
  let re_end := getK cur "retained_earnings" 0
  let ni := getK cur "net_income" 0
  setK cur "dividends" (max 0 (re_begin + ni - re_end))

/-- `wc_keys` (excel_writer.py, lines 437-448): source key, delta key, sign. -/
def wc_keys : List (String × String × ℚ) :=
  [ ("accounts_receivable", "delta_ar", -1),
    ("inventory", "delta_inventory", -1),
    ("prepaid_expenses", "delta_prepaid", -1),
    ("other_current_assets", "delta_other_current_assets", -1),
    ("accounts_payable", "delta_ap", 1),
    ("accrued_payroll", "delta_accrued_payroll", 1),
    ("deferred_revenue", "delta_deferred_revenue", 1),
    ("interest_payable", "delta_interest_payable", 1),
    ("other_current_liabilities", "delta_other_current_liabilities", 1),
    ("income_taxes_payable", "delta_income_taxes_payable", 1) ]

/-- The cash-flow driver body (excel_writer.py, lines 450-463): the ten
working-capital deltas, then `delta_debt`, `stock_issuance` and `capex`,
each assigned into the current year's map in source order. -/
def wcBody (cur pri : YearMap) : YearMap :=
  let cur := wc_keys.foldl
    (fun c t => setK c t.2.1 (t.2.2 * (getK c t.1 0 - getK pri t.1 0))) cur
  let cur := setK cur "delta_debt"
    (getK cur "long_term_debt" 0 - getK pri "long_term_debt" 0)
  let cur := setK cur "stock_issuance"
    (getK cur "common_stock" 0 - getK pri "common_stock" 0)
  setK cur "capex" (-(getK cur "ppe_gross" 0 - getK pri "ppe_gross" 0))

/-- The successful-path computation of `calculate_3statements_from_tb_gl`:
merge, ensure keys, dividends roll-forward, cash-flow drivers. -/
def calc3Core (tb_df gl_df : Option (List TxnRow)) (statement_years : Nat) :
    FinData :=
  let stmt := stmtYearsOf tb_df gl_df statement_years
  let y0 := year0Of tb_df gl_df statement_years
  let combined := mergeLoop (tbFinOf tb_df) (glFinOf gl_df) stmt
    (yearsOutOf tb_df gl_df statement_years) []
  let combined := defaultsLoop stmt (yearsOutOf tb_df gl_df statement_years) combined
  let combined := pairLoop divBody combined y0 stmt
  pairLoop wcBody combined y0 stmt

/-- The message of the `ValueError` raised for a missing opening snapshot
(excel_writer.py, lines 382-386). -/
def missingYear0Message : String :=
  "Missing Year 0 opening snapshot in TB. Expected the prior-year year-end to support opening balances for the first statement year."

/-- `calculate_3statements_from_tb_gl` (excel_writer.py, lines 351-465).
The `ValueError` for a missing Year-0 opening snapshot is modelled as
`Except.error`; the empty-input early return gives an empty map. -/
def calculate_3statements_from_tb_gl (tb_df gl_df : Option (List TxnRow))
    (statement_years : Nat) : Except String FinData :=
  match allYearsOf tb_df gl_df with
  | [] => .ok []
  | _ :: _ =>
    match stmtYearsOf tb_df gl_df statement_years with
    | [] => .ok []
    | f :: _ =>
      if ((tbFinOf tb_df).lookup (f - 1)).isSome then
        .ok (calc3Core tb_df gl_df statement_years)
      else .error missingYear0Message

/-! ### compute_reconciliation_checks (excel_writer.py, lines 468-566) -/

/-- `float(financial_data[y].get(k, 0.0) or 0.0)`. -/
def gkd (fd : FinData) (y : Int) (k : String) : ℚ :=
  getK (getY fd y) k 0

/-- One year's reconciliation entry (excel_writer.py, lines 499-564):
assets, liabilities, TB equity, the balance-sheet residual, the cash
roll-forward residual and the retained-earnings diagnostics. -/
def reconEntry (fd : FinData) (prev y : Int) (reCalcY : ℚ) : YearMap :=
  let ni := gkd fd y "net_income"
  let div := gkd fd y "dividends"
  let cash := gkd fd y "cash"
  let ar := gkd fd y "accounts_receivable"
  let inv := gkd fd y "inventory"
  let pre := gkd fd y "prepaid_expenses"
  let oca := gkd fd y "other_current_assets"
  let ppe_g := gkd fd y "ppe_gross"
  let acc_dep := gkd fd y "accumulated_depreciation"
  let net_ppe := ppe_g - acc_dep
  let assets := cash + ar + inv + pre + oca + net_ppe
  let ap := gkd fd y "accounts_payable"
  let accr := gkd fd y "accrued_payroll"
  let defrev := gkd fd y "deferred_revenue"
  let intpay := gkd fd y "interest_payable"
  let ocl := gkd fd y "other_current_liabilities"
  let taxpay := gkd fd y "income_taxes_payable"
  let debt := gkd fd y "long_term_debt"
  let liabilities := ap + accr + defrev + intpay + ocl + taxpay + debt
  let cs := gkd fd y "common_stock"
  let re_tb := gkd fd y "retained_earnings"
  let equity_tb := cs + re_tb
  let bs_check := assets - (liabilities + equity_tb)
  let begin_cash := gkd fd prev "cash"
  let dep := gkd fd y "depreciation_expense"
  let wc := gkd fd y "delta_ar" + gkd fd y "delta_inventory" +
    gkd fd y "delta_prepaid" + gkd fd y "delta_other_current_assets" +
    gkd fd y "delta_ap" + gkd fd y "delta_accrued_payroll" +
    gkd fd y "delta_deferred_revenue" + gkd fd y "delta_interest_payable" +
    gkd fd y "delta_other_current_liabilities" +
    gkd fd y "delta_income_taxes_payable"
  let capex := gkd fd y "capex"
  let stock := gkd fd y "stock_issuance"
  let deltadebt := gkd fd y "delta_debt"
  let net_cash_change := (ni + dep + wc) + capex + (stock - div + deltadebt)
  let end_cash_calc := begin_cash + net_cash_change
  let cf_check := cash - end_cash_calc
  [ ("balance_sheet_check", bs_check),
    ("cashflow_check", cf_check),
    ("retained_earnings_calc", reCalcY),
    ("retained_earnings_tb", re_tb),
    ("retained_earnings_diff", re_tb - reCalcY) ]

/-- `re_calc[y] = re_calc[prev] + net_income - dividends` (excel_writer.py,
lines 501-503). -/
def reconReY (fd : FinData) (reCalc : List (Int × ℚ)) (prev y : Int) : ℚ :=
  ((reCalc.lookup prev).getD 0) + gkd fd y "net_income" - gkd fd y "dividends"

/-- The per-statement-year loop of `compute_reconciliation_checks`
(excel_writer.py, lines 499-564), carrying the diagnostic `re_calc` map. -/
def reconLoop (fd : FinData) (reCalc : List (Int × ℚ)) (prev : Int) :
    List Int → List (Int × YearMap)
  | [] => []
  | y :: ys =>
    (y, reconEntry fd prev y (reconReY fd reCalc prev y)) ::
      reconLoop fd (setK reCalc y (reconReY fd reCalc prev y)) y ys

/-- `compute_reconciliation_checks` (excel_writer.py, lines 468-566):
empty output for fewer than two years, otherwise one entry per statement
year, seeded with the TB Year-0 retained earnings. -/
def compute_reconciliation_checks (financial_data : FinData) :
    List (Int × YearMap) :=
  match sortedDedup (keysOf financial_data) with
  | [] => []
  | [_] => []
  | y0 :: rest =>
    reconLoop financial_data
      [(y0, gkd financial_data y0 "retained_earnings")] y0 rest

/-! ## Ordering facts about `sortedDedup` -/

theorem mem_insertSorted (x a : Int) (l : List Int) :
    a ∈ insertSorted x l ↔ a = x ∨ a ∈ l := by
  induction l with
  | nil => simp [insertSorted]
  | cons y ys ih =>
    by_cases h1 : x < y
    · simp [insertSorted, h1]
    · by_cases h2 : x = y
      · subst h2
        rw [insertSorted, if_neg h1, if_pos rfl]
        simp
      · rw [insertSorted, if_neg h1, if_neg h2]
        simp only [List.mem_cons, ih]
        tauto

theorem pairwise_insertSorted (x : Int) (l : List Int)
    (h : l.Pairwise (· < ·)) : (insertSorted x l).Pairwise (· < ·) := by
  induction l with
  | nil => simp [insertSorted]
  | cons y ys ih =>
    rw [List.pairwise_cons] at h
    obtain ⟨hy, hys⟩ := h
    by_cases h1 : x < y
    · simp only [insertSorted, h1, if_true]
      rw [List.pairwise_cons]
      refine ⟨?_, ?_⟩
      · intro b hb
        rcases List.mem_cons.mp hb with hb | hb
        · exact hb ▸ h1
        · exact lt_trans h1 (hy b hb)
      · rw [List.pairwise_cons]
        exact ⟨hy, hys⟩
    · by_cases h2 : x = y
      · subst h2
        rw [insertSorted, if_neg h1, if_pos rfl, List.pairwise_cons]
        exact ⟨hy, hys⟩
      · have h3 : y < x := by omega
        rw [insertSorted, if_neg h1, if_neg h2, List.pairwise_cons]
        refine ⟨?_, ih hys⟩
        intro b hb
        rcases (mem_insertSorted x b ys).mp hb with hb | hb
        · exact hb ▸ h3
        · exact hy b hb

theorem sortedDedup_pairwise (l : List Int) :
    (sortedDedup l).Pairwise (· < ·) := by
  induction l with
  | nil => simp [sortedDedup]
  | cons a l ih => exact pairwise_insertSorted a _ ih

theorem mem_sortedDedup (l : List Int) (a : Int) :
    a ∈ sortedDedup l ↔ a ∈ l := by
  induction l with
  | nil => simp [sortedDedup]
  | cons b l ih =>
    show a ∈ insertSorted b (sortedDedup l) ↔ _
    rw [mem_insertSorted, ih]
    simp

theorem sortedDedup_nodup (l : List Int) : (sortedDedup l).Nodup :=
  (sortedDedup_pairwise l).imp (fun h => ne_of_lt h)

/-! ## Generic facts about `pairLoop` -/

theorem getY_setY_self (fd : FinData) (y : Int) (m : YearMap) :
    getY (setY fd y m) y = m := by
  unfold getY setY
  rw [lookup_setK_self]
  rfl

theorem getY_setY_ne (fd : FinData) (y y' : Int) (m : YearMap) (h : y' ≠ y) :
    getY (setY fd y m) y' = getY fd y' := by
  unfold getY setY
  rw [lookup_setK_ne _ _ _ _ h]

theorem pairLoop_getY_notmem (f : YearMap → YearMap → YearMap)
    (ys : List Int) (fd : FinData) (prev y : Int) (h : y ∉ ys) :
    getY (pairLoop f fd prev ys) y = getY fd y := by
  induction ys generalizing fd prev with
  | nil => rfl
  | cons y0 rest ih =>
    simp only [List.mem_cons, not_or] at h
    rw [pairLoop, ih _ _ h.2, getY_setY_ne _ _ _ _ h.1]

theorem pairLoop_frame (f : YearMap → YearMap → YearMap) (K : List String)
    (hf : ∀ cur pri k, k ∉ K → (f cur pri).lookup k = cur.lookup k)
    (ys : List Int) (fd : FinData) (prev y : Int) (k : String) (hk : k ∉ K) :
    (getY (pairLoop f fd prev ys) y).lookup k = (getY fd y).lookup k := by
  induction ys generalizing fd prev with
  | nil => rfl
  | cons y0 rest ih =>
    rw [pairLoop, ih]
    by_cases h : y = y0
    · subst h
      rw [getY_setY_self, hf _ _ _ hk]
    · rw [getY_setY_ne _ _ _ _ h]

theorem pairLoop_pair_spec (f : YearMap → YearMap → YearMap) (K : List String)
    (hf : ∀ cur pri k, k ∉ K → (f cur pri).lookup k = cur.lookup k)
    (ys : List Int) :
    ∀ (fd : FinData) (prev : Int) (i : Nat) (p y : Int),
    (prev :: ys).Nodup →
    (prev :: ys).get? i = some p → (prev :: ys).get? (i + 1) = some y →
    ∃ cur pri, getY (pairLoop f fd prev ys) y = f cur pri ∧
      (∀ k, k ∉ K → cur.lookup k = (getY fd y).lookup k) ∧
      (∀ k, k ∉ K → pri.lookup k = (getY fd p).lookup k) := by
  induction ys with
  | nil =>
    intro fd prev i p y hnd hp hy
    rcases i with _ | j
    · simp at hy
    · simp at hy
  | cons y0 rest ih =>
    intro fd prev i p y hnd hp hy
    have hnd' : (y0 :: rest).Nodup := (List.nodup_cons.mp hnd).2
    rcases i with _ | j
    · rw [List.get?_cons_zero] at hp
      rw [List.get?_cons_succ, List.get?_cons_zero] at hy
      injection hp with hp1
      injection hy with hy1
      subst hp1
      subst hy1
      have hynotin : y0 ∉ rest := (List.nodup_cons.mp hnd').1
      refine ⟨getY fd y0, getY fd prev, ?_, fun k _ => rfl, fun k _ => rfl⟩
      rw [pairLoop, pairLoop_getY_notmem _ _ _ _ _ hynotin, getY_setY_self]
    · rw [List.get?_cons_succ] at hp hy
      obtain ⟨cur, pri, heq, hcur, hpri⟩ :=
        ih (setY fd y0 (f (getY fd y0) (getY fd prev))) y0 j p y hnd' hp hy
      have hymem : y ∈ rest := by
        have hy2 := hy
        rw [List.get?_cons_succ] at hy2
        exact List.get?_mem hy2
      have hyne : y ≠ y0 := fun e => (List.nodup_cons.mp hnd').1 (e ▸ hymem)
      refine ⟨cur, pri, by rw [pairLoop]; exact heq, ?_, ?_⟩
      · intro k hk
        rw [hcur k hk, getY_setY_ne _ _ _ _ hyne]
      · intro k hk
        rw [hpri k hk]
        by_cases hpy : p = y0
        · subst hpy
          rw [getY_setY_self, hf _ _ _ hk]
        · rw [getY_setY_ne _ _ _ _ hpy]

/-! ## Evaluation lemmas for the loop bodies -/

theorem divBody_lookup_dividends (cur pri : YearMap) :
    (divBody cur pri).lookup "dividends" =
      some (max 0 (getK pri "retained_earnings" 0 + getK cur "net_income" 0 -
        getK cur "retained_earnings" 0)) := by
  unfold divBody
  exact lookup_setK_self _ _ _

theorem divBody_frame (cur pri : YearMap) (k : String)
    (h : k ∉ ["dividends"]) : (divBody cur pri).lookup k = cur.lookup k := by
  unfold divBody
  exact lookup_setK_ne _ _ _ _ (by simpa using h)

/-- The working-capital fold inside `wcBody`. -/
def wcFold (pri : YearMap) (l : List (String × String × ℚ)) (cur : YearMap) :
    YearMap :=
  l.foldl (fun c t => setK c t.2.1 (t.2.2 * (getK c t.1 0 - getK pri t.1 0))) cur

theorem wcBody_eq_wcFold (cur pri : YearMap) :
    wcBody cur pri =
      setK (setK (setK (wcFold pri wc_keys cur) "delta_debt"
        (getK (wcFold pri wc_keys cur) "long_term_debt" 0 -
          getK pri "long_term_debt" 0)) "stock_issuance"
        (getK (setK (wcFold pri wc_keys cur) "delta_debt"
          (getK (wcFold pri wc_keys cur) "long_term_debt" 0 -
            getK pri "long_term_debt" 0)) "common_stock" 0 -
          getK pri "common_stock" 0)) "capex"
        (-(getK (setK (setK (wcFold pri wc_keys cur) "delta_debt"
            (getK (wcFold pri wc_keys cur) "long_term_debt" 0 -
              getK pri "long_term_debt" 0)) "stock_issuance"
            (getK (setK (wcFold pri wc_keys cur) "delta_debt"
              (getK (wcFold pri wc_keys cur) "long_term_debt" 0 -
                getK pri "long_term_debt" 0)) "common_stock" 0 -
              getK pri "common_stock" 0)) "ppe_gross" 0 -
          getK pri "ppe_gross" 0)) := rfl

theorem wcFold_frame (pri : YearMap) (l : List (String × String × ℚ))
    (cur : YearMap) (k : String) (h : k ∉ l.map (fun t => t.2.1)) :
    (wcFold pri l cur).lookup k = cur.lookup k := by
  induction l generalizing cur with
  | nil => rfl
  | cons t rest ih =>
    simp only [List.map_cons, List.mem_cons, not_or] at h
    rw [wcFold, List.foldl_cons]
    have := ih (setK cur t.2.1 (t.2.2 * (getK cur t.1 0 - getK pri t.1 0))) h.2
    rw [wcFold] at this
    rw [this, lookup_setK_ne _ _ _ _ h.1]

theorem wcFold_lookup (pri : YearMap) (l : List (String × String × ℚ))
    (cur : YearMap)
    (hnd : (l.map (fun t => t.2.1)).Nodup)
    (hsd : ∀ t ∈ l, t.1 ∉ l.map (fun t => t.2.1))
    (t : String × String × ℚ) (ht : t ∈ l) :
    (wcFold pri l cur).lookup t.2.1 =
      some (t.2.2 * (getK cur t.1 0 - getK pri t.1 0)) := by
  induction l generalizing cur with
  | nil => simp at ht
  | cons t0 rest ih =>
    simp only [List.map_cons, List.nodup_cons] at hnd
    rcases List.mem_cons.mp ht with heq | hmem
    · subst heq
      rw [wcFold, List.foldl_cons]
      have hfr := wcFold_frame pri rest
        (setK cur t.2.1 (t.2.2 * (getK cur t.1 0 - getK pri t.1 0))) t.2.1 hnd.1
      rw [wcFold] at hfr
      rw [hfr, lookup_setK_self]
    · rw [wcFold, List.foldl_cons]
      have hsd2 : ∀ s ∈ rest, s.1 ∉ rest.map (fun t => t.2.1) := by
        intro s hs
        have hh := hsd s (List.mem_cons_of_mem _ hs)
        simp only [List.map_cons, List.mem_cons, not_or] at hh
        exact hh.2
      have ht1 : t.1 ≠ t0.2.1 := by
        have hh := hsd t ht
        simp only [List.map_cons, List.mem_cons, not_or] at hh
        exact hh.1
      have hcur2 : getK (setK cur t0.2.1
          (t0.2.2 * (getK cur t0.1 0 - getK pri t0.1 0))) t.1 0 =
          getK cur t.1 0 := by
        unfold getK
        rw [lookup_setK_ne _ _ _ _ ht1]
      have hih := ih (setK cur t0.2.1
        (t0.2.2 * (getK cur t0.1 0 - getK pri t0.1 0))) hnd.2 hsd2 hmem
      rw [wcFold] at hih
      rw [hih, hcur2]

/-- The thirteen keys written by the cash-flow driver passes. -/
def wcFrameKeys : List String :=
  [ "delta_ar", "delta_inventory", "delta_prepaid",
    "delta_other_current_assets", "delta_ap", "delta_accrued_payroll",
    "delta_deferred_revenue", "delta_interest_payable",
    "delta_other_current_liabilities", "delta_income_taxes_payable",
    "delta_debt", "stock_issuance", "capex" ]

theorem wcBody_frame (cur pri : YearMap) (k : String)
    (h : k ∉ wcFrameKeys) : (wcBody cur pri).lookup k = cur.lookup k := by
  simp only [wcFrameKeys, List.mem_cons, not_or, List.not_mem_nil,
    not_false_iff, and_true] at h
  obtain ⟨h1, h2, h3, h4, h5, h6, h7, h8, h9, h10, h11, h12, h13⟩ := h
  rw [wcBody_eq_wcFold, lookup_setK_ne _ _ _ _ h13,
    lookup_setK_ne _ _ _ _ h12, lookup_setK_ne _ _ _ _ h11]
  apply wcFold_frame
  simp only [wc_keys, List.map_cons, List.map_nil, List.mem_cons,
    List.not_mem_nil, not_or]
  exact ⟨h1, h2, h3, h4, h5, h6, h7, h8, h9, h10, not_false_iff.mpr trivial⟩

theorem wcBody_lookup_wc (cur pri : YearMap) (t : String × String × ℚ)
    (ht : t ∈ wc_keys) :
    (wcBody cur pri).lookup t.2.1 =
      some (t.2.2 * (getK cur t.1 0 - getK pri t.1 0)) := by
  have hcap : t.2.1 ≠ "capex" := by fin_cases ht <;> decide
  have hsi : t.2.1 ≠ "stock_issuance" := by fin_cases ht <;> decide
  have hdd : t.2.1 ≠ "delta_debt" := by fin_cases ht <;> decide
  rw [wcBody_eq_wcFold, lookup_setK_ne _ _ _ _ hcap,
    lookup_setK_ne _ _ _ _ hsi, lookup_setK_ne _ _ _ _ hdd]
  exact wcFold_lookup pri wc_keys cur (by decide) (by decide) t ht

theorem wcBody_lookup_delta_debt (cur pri : YearMap) :
    (wcBody cur pri).lookup "delta_debt" =
      some (getK cur "long_term_debt" 0 - getK pri "long_term_debt" 0) := by
  have hfr : getK (wcFold pri wc_keys cur) "long_term_debt" 0 =
      getK cur "long_term_debt" 0 := by
    unfold getK
    rw [wcFold_frame _ _ _ _ (by decide)]
  rw [wcBody_eq_wcFold, lookup_setK_ne _ _ _ _ (by decide),
    lookup_setK_ne _ _ _ _ (by decide), lookup_setK_self, hfr]

theorem wcBody_lookup_stock_issuance (cur pri : YearMap) :
    (wcBody cur pri).lookup "stock_issuance" =
      some (getK cur "common_stock" 0 - getK pri "common_stock" 0) := by
  have hfr : getK (setK (wcFold pri wc_keys cur) "delta_debt"
      (getK (wcFold pri wc_keys cur) "long_term_debt" 0 -
        getK pri "long_term_debt" 0)) "common_stock" 0 =
      getK cur "common_stock" 0 := by
    unfold getK
    rw [lookup_setK_ne _ _ _ _ (by decide), wcFold_frame _ _ _ _ (by decide)]
  rw [wcBody_eq_wcFold, lookup_setK_ne _ _ _ _ (by decide), lookup_setK_self,
    hfr]

theorem wcBody_lookup_capex (cur pri : YearMap) :
    (wcBody cur pri).lookup "capex" =
      some (-(getK cur "ppe_gross" 0 - getK pri "ppe_gross" 0)) := by
  have hfr : getK (setK (setK (wcFold pri wc_keys cur) "delta_debt"
      (getK (wcFold pri wc_keys cur) "long_term_debt" 0 -
        getK pri "long_term_debt" 0)) "stock_issuance"
      (getK (setK (wcFold pri wc_keys cur) "delta_debt"
        (getK (wcFold pri wc_keys cur) "long_term_debt" 0 -
          getK pri "long_term_debt" 0)) "common_stock" 0 -
        getK pri "common_stock" 0)) "ppe_gross" 0 =
      getK cur "ppe_gross" 0 := by
    unfold getK
    rw [lookup_setK_ne _ _ _ _ (by decide), lookup_setK_ne _ _ _ _ (by decide),
      wcFold_frame _ _ _ _ (by decide)]
  rw [wcBody_eq_wcFold, lookup_setK_self, hfr]

/-! ### dictUpdate lookup lemmas -/

theorem lookup_eq_none_of_notmem {α : Type} [BEq α] [LawfulBEq α] {β : Type}
    (l : List (α × β)) (k : α) (h : k ∉ keysOf l) : l.lookup k = none := by
  induction l with
  | nil => rfl
  | cons kv rest ih =>
    simp only [keysOf, List.map_cons, List.mem_cons, not_or] at h
    have : (k == kv.1) = false := by simp [h.1]
    simp only [List.lookup, this]
    exact ih (by simp [keysOf, h.2])

theorem lookup_dictUpdate_notmem {α : Type} [BEq α] [LawfulBEq α] {β : Type}
    (l m : List (α × β)) (k : α) (h : k ∉ keysOf l) :
    (dictUpdate m l).lookup k = m.lookup k := by
  induction l generalizing m with
  | nil => rfl
  | cons kv rest ih =>
    simp only [keysOf, List.map_cons, List.mem_cons, not_or] at h
    rw [dictUpdate, List.foldl_cons]
    have hres := ih (setK m kv.1 kv.2) (by simp [keysOf, h.2])
    rw [dictUpdate] at hres
    rw [hres, lookup_setK_ne _ _ _ _ h.1]

theorem lookup_dictUpdate_mem {α : Type} [BEq α] [LawfulBEq α] {β : Type}
    (l m : List (α × β)) (k : α) (v : β)
    (hnd : (keysOf l).Nodup) (hmem : (k, v) ∈ l) :
    (dictUpdate m l).lookup k = some v := by
  induction l generalizing m with
  | nil => simp at hmem
  | cons kv rest ih =>
    simp only [keysOf, List.map_cons, List.nodup_cons] at hnd
    rw [dictUpdate, List.foldl_cons]
    rcases List.mem_cons.mp hmem with heq | hmem2
    · have hk : kv.1 = k := by rw [← heq]
      have hv : kv.2 = v := by rw [← heq]
      subst hk
      have hres := lookup_dictUpdate_notmem rest (setK m kv.1 kv.2) kv.1
        (by simpa [keysOf] using hnd.1)
      rw [dictUpdate] at hres
      rw [hres, lookup_setK_self, hv]
    · have := ih (setK m kv.1 kv.2) hnd.2 hmem2
      rw [dictUpdate] at this
      rw [this]

theorem lookup_dictUpdate_isSome {α : Type} [BEq α] [LawfulBEq α] {β : Type}
    (l m : List (α × β)) (k : α) (h : (m.lookup k).isSome) :
    ((dictUpdate m l).lookup k).isSome := by
  induction l generalizing m with
  | nil => exact h
  | cons kv rest ih =>
    rw [dictUpdate, List.foldl_cons]
    have hstep : ((setK m kv.1 kv.2).lookup k).isSome := by
      by_cases hk : k = kv.1
      · subst hk
        rw [lookup_setK_self]
        rfl
      · rw [lookup_setK_ne _ _ _ _ hk]
        exact h
    have := ih (setK m kv.1 kv.2) hstep
    rw [dictUpdate] at this
    exact this

theorem lookup_dictUpdate_keys_isSome {α : Type} [BEq α] [LawfulBEq α]
    {β : Type} (l m : List (α × β)) (k : α) (h : k ∈ keysOf l) :
    ((dictUpdate m l).lookup k).isSome := by
  induction l generalizing m with
  | nil => simp [keysOf] at h
  | cons kv rest ih =>
    rw [dictUpdate, List.foldl_cons]
    simp only [keysOf, List.map_cons, List.mem_cons] at h
    by_cases hk : k ∈ keysOf rest
    · have := ih (setK m kv.1 kv.2) hk
      rw [dictUpdate] at this
      exact this
    · have hk0 : k = kv.1 := by
        rcases h with h | h
        · exact h
        · exact absurd (by simpa [keysOf] using h) hk
      have hstep : ((setK m kv.1 kv.2).lookup k).isSome := by
        rw [hk0, lookup_setK_self]
        rfl
      have := lookup_dictUpdate_isSome rest (setK m kv.1 kv.2) k hstep
      rw [dictUpdate] at this
      exact this

/-! ### legacyDeltaBody lookup lemmas -/

theorem legacyDeltaBody_frame (cur pri : YearMap) (k : String)
    (h : k ∉ wcFrameKeys) : (legacyDeltaBody cur pri).lookup k = cur.lookup k := by
  unfold legacyDeltaBody
  apply lookup_dictUpdate_notmem
  simp only [wcFrameKeys, List.mem_cons, not_or, List.not_mem_nil,
    not_false_iff, and_true] at h
  simp only [keysOf, List.map_cons, List.map_nil, List.mem_cons,
    List.not_mem_nil, not_or]
  tauto

theorem legacyDeltaBody_keys_nodup (cur pri : YearMap) :
    (keysOf
      [ (("delta_ar" : String),
          -(getK cur "accounts_receivable" 0 - getK pri "accounts_receivable" 0)),
        ("delta_inventory", -(getK cur "inventory" 0 - getK pri "inventory" 0)),
        ("delta_prepaid", -(getK cur "prepaid_expenses" 0 - getK pri "prepaid_expenses" 0)),
        ("delta_other_current_assets", -(getK cur "other_current_assets" 0 - getK pri "other_current_assets" 0)),
        ("delta_ap", getK cur "accounts_payable" 0 - getK pri "accounts_payable" 0),
        ("delta_accrued_payroll", getK cur "accrued_payroll" 0 - getK pri "accrued_payroll" 0),
        ("delta_deferred_revenue", getK cur "deferred_revenue" 0 - getK pri "deferred_revenue" 0),
        ("delta_interest_payable", getK cur "interest_payable" 0 - getK pri "interest_payable" 0),
        ("delta_other_current_liabilities", getK cur "other_current_liabilities" 0 - getK pri "other_current_liabilities" 0),
        ("delta_income_taxes_payable", getK cur "income_taxes_payable" 0 - getK pri "income_taxes_payable" 0),
        ("delta_debt", getK cur "long_term_debt" 0 - getK pri "long_term_debt" 0),
        ("capex", -(getK cur "ppe_gross" 0 - getK pri "ppe_gross" 0)),
        ("stock_issuance", getK cur "common_stock" 0 - getK pri "common_stock" 0) ]).Nodup := by
  simp only [keysOf, List.map_cons, List.map_nil]
  decide

theorem legacyDeltaBody_lookup_delta_ar (cur pri : YearMap) :
    (legacyDeltaBody cur pri).lookup "delta_ar" =
      some (-(getK cur "accounts_receivable" 0 -
        getK pri "accounts_receivable" 0)) := by
  unfold legacyDeltaBody
  exact lookup_dictUpdate_mem _ _ _ _ (legacyDeltaBody_keys_nodup cur pri)
    (by simp)

theorem legacyDeltaBody_lookup_wc (cur pri : YearMap)
    (t : String × String × ℚ) (ht : t ∈ wc_keys) :
    (legacyDeltaBody cur pri).lookup t.2.1 =
      some (t.2.2 * (getK cur t.1 0 - getK pri t.1 0)) := by
  unfold legacyDeltaBody
  fin_cases ht <;>
    · refine lookup_dictUpdate_mem _ _ _ _ (legacyDeltaBody_keys_nodup cur pri) ?_
      norm_num

theorem legacyDeltaBody_lookup_capex (cur pri : YearMap) :
    (legacyDeltaBody cur pri).lookup "capex" =
      some (-(getK cur "ppe_gross" 0 - getK pri "ppe_gross" 0)) := by
  unfold legacyDeltaBody
  exact lookup_dictUpdate_mem _ _ _ _ (legacyDeltaBody_keys_nodup cur pri)
    (by simp)

/-! ### Lookup on year-indexed maps built by `List.map` -/

theorem lookup_map_pair_mem {α : Type} [BEq α] [LawfulBEq α] {β : Type}
    (l : List α) (f : α → β) (y : α) (h : y ∈ l) :
    (l.map (fun x => (x, f x))).lookup y = some (f y) := by
  induction l with
  | nil => simp at h
  | cons a l ih =>
    by_cases hy : y = a
    · subst hy
      simp [List.lookup]
    · have : (y == a) = false := by simp [hy]
      simp only [List.map_cons, List.lookup, this]
      refine ih ?_
      rcases List.mem_cons.mp h with h2 | h2
      · exact absurd h2 hy
      · exact h2

theorem keysOf_map_pair {α : Type} {β : Type} (l : List α) (f : α → β) :
    keysOf (l.map (fun x => (x, f x))) = l := by
  unfold keysOf
  rw [List.map_map]
  exact List.map_id l

/-! ### Key inventories of the aggregator output -/

/-- The 25 line-item keys present in every aggregator year
(Income-Statement and Balance-Sheet items). -/
def base_item_keys : List String :=
  [ "revenue", "cogs", "distribution_expenses", "marketing_admin",
    "research_dev", "depreciation_expense", "interest_expense", "tax_expense",
    "net_income", "cash", "accounts_receivable", "inventory",
    "prepaid_expenses", "other_current_assets", "ppe_gross",
    "accumulated_depreciation", "accounts_payable", "accrued_payroll",
    "deferred_revenue", "interest_payable", "other_current_liabilities",
    "income_taxes_payable", "long_term_debt", "common_stock",
    "retained_earnings" ]

/-- The 13 cash-flow driver keys added by the delta passes. -/
def delta_item_keys : List String := wcFrameKeys

theorem statementFor_base_isSome (rows : List TxnRow) (tb : Bool) (y : Int)
    (k : String) (hk : k ∈ base_item_keys) :
    ((statementFor rows tb y).lookup k).isSome := by
  fin_cases hk <;> rfl

theorem statementFor_delta_none (rows : List TxnRow) (tb : Bool) (y : Int)
    (k : String) (hk : k ∈ delta_item_keys) :
    (statementFor rows tb y).lookup k = none := by
  fin_cases hk <;> rfl

theorem pairLoop_keysOf (f : YearMap → YearMap → YearMap) (ys : List Int)
    (fd : FinData) (prev : Int) (h : ∀ y ∈ ys, y ∈ keysOf fd) :
    keysOf (pairLoop f fd prev ys) = keysOf fd := by
  induction ys generalizing fd prev with
  | nil => rfl
  | cons y0 rest ih =>
    have h0 : y0 ∈ keysOf fd := h y0 (List.mem_cons_self _ _)
    have hkeys : keysOf (setY fd y0 (f (getY fd y0) (getY fd prev))) =
        keysOf fd := keysOf_setK_mem _ _ _ h0
    have hsub : ∀ y ∈ rest,
        y ∈ keysOf (setY fd y0 (f (getY fd y0) (getY fd prev))) := by
      intro y hy
      rw [hkeys]
      exact h y (List.mem_cons_of_mem _ hy)
    rw [pairLoop, ih _ _ hsub, hkeys]

theorem pairLoop_isSome (f : YearMap → YearMap → YearMap)
    (hpres : ∀ cur pri k, (cur.lookup k).isSome → ((f cur pri).lookup k).isSome)
    (ys : List Int) (fd : FinData) (prev y : Int) (k : String)
    (h : ((getY fd y).lookup k).isSome) :
    ((getY (pairLoop f fd prev ys) y).lookup k).isSome := by
  induction ys generalizing fd prev with
  | nil => exact h
  | cons y0 rest ih =>
    rw [pairLoop]
    apply ih
    by_cases hy : y = y0
    · subst hy
      rw [getY_setY_self]
      exact hpres _ _ _ h
    · rw [getY_setY_ne _ _ _ _ hy]
      exact h

/-! ### mergeLoop and defaultsLoop lemmas -/

theorem mergeLoop_getY_notmem (tbFin glFin : FinData) (stmt ys : List Int)
    (acc : FinData) (y : Int) (h : y ∉ ys) :
    getY (mergeLoop tbFin glFin stmt ys acc) y = getY acc y := by
  induction ys generalizing acc with
  | nil => rfl
  | cons y0 rest ih =>
    simp only [List.mem_cons, not_or] at h
    rw [mergeLoop, ih _ h.2, getY_setY_ne _ _ _ _ h.1]

theorem mergeLoop_getY_mem (tbFin glFin : FinData) (stmt ys : List Int)
    (acc : FinData) (y : Int) (h : y ∈ ys) :
    getY (mergeLoop tbFin glFin stmt ys acc) y =
      mergeYearMap tbFin glFin stmt y := by
  induction ys generalizing acc with
  | nil => simp at h
  | cons y0 rest ih =>
    rw [mergeLoop]
    by_cases hrest : y ∈ rest
    · exact ih _ hrest
    · have hy0 : y = y0 := by
        rcases List.mem_cons.mp h with h | h
        · exact h
        · exact absurd h hrest
      subst hy0
      rw [mergeLoop_getY_notmem _ _ _ _ _ _ hrest, getY_setY_self]

theorem mem_of_lookup_eq_some {α : Type} [BEq α] [LawfulBEq α] {β : Type}
    (l : List (α × β)) (k : α) (v : β) (h : l.lookup k = some v) :
    (k, v) ∈ l := by
  induction l with
  | nil => simp [List.lookup] at h
  | cons kv rest ih =>
    simp only [List.lookup] at h
    cases hbeq : (k == kv.1) with
    | false =>
      rw [hbeq] at h
      exact List.mem_cons_of_mem _ (ih h)
    | true =>
      rw [hbeq] at h
      injection h with hv
      have hk : k = kv.1 := by simpa using hbeq
      refine List.mem_cons.mpr (Or.inl ?_)
      obtain ⟨a, b⟩ := kv
      simp only at hk hv
      rw [hk, hv]

theorem lookup_dictUpdate {α : Type} [BEq α] [LawfulBEq α] {β : Type}
    (l m : List (α × β)) (k : α) (hnd : (keysOf l).Nodup) :
    (dictUpdate m l).lookup k =
      (match l.lookup k with
       | some v => some v
       | none => m.lookup k) := by
  cases hl : l.lookup k with
  | some v =>
    have hmem : (k, v) ∈ l := mem_of_lookup_eq_some l k v hl
    exact lookup_dictUpdate_mem l m k v hnd hmem
  | none =>
    have hnotmem : k ∉ keysOf l := by
      intro hmem
      induction l with
      | nil => simp [keysOf] at hmem
      | cons kv rest ih =>
        simp only [keysOf, List.map_cons, List.mem_cons] at hmem
        simp only [List.lookup] at hl
        rcases hmem with hmem | hmem
        · rw [hmem] at hl
          simp at hl
        · rcases hbeq : (k == kv.1) with _ | _
          · rw [hbeq] at hl
            simp only [keysOf, List.map_cons, List.nodup_cons] at hnd
            exact ih hnd.2 hl (by simpa [keysOf] using hmem)
          · rw [hbeq] at hl
            simp at hl
    exact lookup_dictUpdate_notmem l m k hnotmem

/-! ### Shape facts about the merger's year lists -/

theorem stmtYearsOf_of_allYears_nil (tb gl : Option (List TxnRow)) (n : Nat)
    (h : allYearsOf tb gl = []) : stmtYearsOf tb gl n = [] := by
  unfold stmtYearsOf
  rw [h]
  by_cases h0 : n = 0
  · simp [h0]
  · simp [h0]

theorem stmtYearsOf_ne_nil (tb gl : Option (List TxnRow)) (n : Nat)
    (h : allYearsOf tb gl ≠ []) : stmtYearsOf tb gl n ≠ [] := by
  unfold stmtYearsOf
  by_cases hle : n ≤ (allYearsOf tb gl).length
  · rw [if_pos hle]
    by_cases h0 : n = 0
    · rw [if_pos h0]
      exact h
    · rw [if_neg h0]
      intro hd
      have hlen := congrArg List.length hd
      rw [List.length_drop] at hlen
      simp at hlen
      omega
  · rw [if_neg hle]
    exact h

theorem stmtYearsOf_sublist (tb gl : Option (List TxnRow)) (n : Nat) :
    (stmtYearsOf tb gl n).Sublist (allYearsOf tb gl) := by
  unfold stmtYearsOf
  by_cases hle : n ≤ (allYearsOf tb gl).length
  · rw [if_pos hle]
    by_cases h0 : n = 0
    · rw [if_pos h0]
    · rw [if_neg h0]
      exact List.drop_sublist _ _
  · rw [if_neg hle]

theorem stmtYearsOf_pairwise (tb gl : Option (List TxnRow)) (n : Nat) :
    (stmtYearsOf tb gl n).Pairwise (· < ·) :=
  (sortedDedup_pairwise _).sublist (stmtYearsOf_sublist tb gl n)

theorem yearsOutOf_pairwise (tb gl : Option (List TxnRow)) (n : Nat) :
    (yearsOutOf tb gl n).Pairwise (· < ·) := by
  unfold yearsOutOf year0Of
  cases hs : stmtYearsOf tb gl n with
  | nil => simp
  | cons f fs =>
    rw [List.headD_cons, List.pairwise_cons]
    have hpw := stmtYearsOf_pairwise tb gl n
    rw [hs, List.pairwise_cons] at hpw
    refine ⟨?_, hpw.2.cons hpw.1⟩
    intro b hb
    rcases List.mem_cons.mp hb with hb | hb
    · omega
    · have := hpw.1 b hb
      omega

theorem yearsOutOf_nodup (tb gl : Option (List TxnRow)) (n : Nat) :
    (yearsOutOf tb gl n).Nodup :=
  (yearsOutOf_pairwise tb gl n).imp (fun h => ne_of_lt h)

/-- Unfolding of the merger on the success path. -/
theorem calc3_eq_ok (tb gl : Option (List TxnRow)) (n : Nat) (f : Int)
    (fs : List Int) (hall : allYearsOf tb gl ≠ [])
    (hs : stmtYearsOf tb gl n = f :: fs)
    (hsome : ((tbFinOf tb).lookup (f - 1)).isSome) :
    calculate_3statements_from_tb_gl tb gl n = .ok (calc3Core tb gl n) := by
  unfold calculate_3statements_from_tb_gl
  cases hall2 : allYearsOf tb gl with
  | nil => exact absurd hall2 hall
  | cons a rest =>
    rw [hs]
    simp only [hsome, if_true]

/-- Unfolding of the merger on the failure path. -/
theorem calc3_eq_error (tb gl : Option (List TxnRow)) (n : Nat) (f : Int)
    (fs : List Int) (hall : allYearsOf tb gl ≠ [])
    (hs : stmtYearsOf tb gl n = f :: fs)
    (hnone : ((tbFinOf tb).lookup (f - 1)) = none) :
    calculate_3statements_from_tb_gl tb gl n = .error missingYear0Message := by
  unfold calculate_3statements_from_tb_gl
  cases hall2 : allYearsOf tb gl with
  | nil => exact absurd hall2 hall
  | cons a rest =>
    rw [hs]
    simp only [hnone, Option.isSome_none, Bool.false_eq_true, if_false]

theorem calc3_ok_inversion (tb gl : Option (List TxnRow)) (n : Nat)
    (out : FinData)
    (hok : calculate_3statements_from_tb_gl tb gl n = .ok out)
    (hstmt : stmtYearsOf tb gl n ≠ []) : out = calc3Core tb gl n := by
  obtain ⟨f, fs, hs⟩ : ∃ f fs, stmtYearsOf tb gl n = f :: fs := by
    cases h : stmtYearsOf tb gl n with
    | nil => exact absurd h hstmt
    | cons f fs => exact ⟨f, fs, rfl⟩
  have hall : allYearsOf tb gl ≠ [] := by
    intro h
    exact hstmt (stmtYearsOf_of_allYears_nil tb gl n h)
  cases hlk : ((tbFinOf tb).lookup (f - 1)) with
  | none =>
    have herr := calc3_eq_error tb gl n f fs hall hs hlk
    rw [herr] at hok
    exact absurd hok (by simp)
  | some m =>
    have hsucc := calc3_eq_ok tb gl n f fs hall hs (by rw [hlk]; rfl)
    rw [hsucc] at hok
    injection hok with h
    exact h.symm

/-- **C1**: when the union of TB and GL years is non-empty, the TB+GL merger
fails with the missing-opening-snapshot error exactly when Year0 (the year
before the first statement year) is absent from the TB-derived statements,
and returns the merged statements without raising when Year0 is present. -/
theorem calc3_missing_year0_behavior (tb gl : Option (List TxnRow)) (n : Nat)
    (hne : allYearsOf tb gl ≠ []) :
    (((tbFinOf tb).lookup (year0Of tb gl n)) = none →
      calculate_3statements_from_tb_gl tb gl n = .error missingYear0Message) ∧
    (((tbFinOf tb).lookup (year0Of tb gl n)).isSome →
      calculate_3statements_from_tb_gl tb gl n = .ok (calc3Core tb gl n)) := by
  obtain ⟨f, fs, hs⟩ : ∃ f fs, stmtYearsOf tb gl n = f :: fs := by
    cases h : stmtYearsOf tb gl n with
    | nil => exact absurd h (stmtYearsOf_ne_nil tb gl n hne)
    | cons f fs => exact ⟨f, fs, rfl⟩
  have hy0 : year0Of tb gl n = f - 1 := by
    unfold year0Of
    rw [hs, List.headD_cons]
  constructor
  · intro h
    rw [hy0] at h
    exact calc3_eq_error tb gl n f fs hne hs h
  · intro h
    rw [hy0] at h
    exact calc3_eq_ok tb gl n f fs hne hs h

/-- TB fixture: year-end cash snapshots for 2018-2021. -/
def tbRowsW : List TxnRow :=
  [ ⟨2018, 0, "cash", 10, 0⟩, ⟨2019, 0, "cash", 20, 0⟩,
    ⟨2020, 0, "cash", 30, 0⟩, ⟨2021, 0, "cash", 40, 0⟩ ]

/-- GL fixture: one revenue posting in 2021. -/
def glRowsW : List TxnRow := [⟨2021, 0, "revenue", 0, 100⟩]

/-- TB fixture missing the 2018 opening snapshot. -/
def tbRowsShortW : List TxnRow :=
  [ ⟨2019, 0, "cash", 20, 0⟩, ⟨2020, 0, "cash", 30, 0⟩,
    ⟨2021, 0, "cash", 40, 0⟩ ]

/-- Witness for **C1**: with TB years 2018-2021 the merge succeeds
(Year0 2018 present); dropping 2018 from TB makes it fail with the
missing-opening-snapshot error. -/
theorem calc3_missing_year0_behavior_witness :
    calculate_3statements_from_tb_gl (some tbRowsW) (some glRowsW) 3 =
      .ok (calc3Core (some tbRowsW) (some glRowsW) 3) ∧
    calculate_3statements_from_tb_gl (some tbRowsShortW) (some glRowsW) 3 =
      .error missingYear0Message :=
  ⟨(calc3_missing_year0_behavior (some tbRowsW) (some glRowsW) 3
      (by decide)).2 (by decide),
   (calc3_missing_year0_behavior (some tbRowsShortW) (some glRowsW) 3
      (by decide)).1 (by decide)⟩

theorem yearsOutOf_eq_cons (tb gl : Option (List TxnRow)) (n : Nat) :
    yearsOutOf tb gl n = year0Of tb gl n :: stmtYearsOf tb gl n := rfl

theorem calc3Core_eq (tb gl : Option (List TxnRow)) (n : Nat) :
    calc3Core tb gl n =
      pairLoop wcBody
        (pairLoop divBody
          (defaultsLoop (stmtYearsOf tb gl n) (yearsOutOf tb gl n)
            (mergeLoop (tbFinOf tb) (glFinOf gl) (stmtYearsOf tb gl n)
              (yearsOutOf tb gl n) []))
          (year0Of tb gl n) (stmtYearsOf tb gl n))
        (year0Of tb gl n) (stmtYearsOf tb gl n) := rfl

/-- **C2**: in the merged TB+GL output, for every statement year `y` with
predecessor output year `p` (Year0 for the first statement year), the
stored dividends equal `max 0 (RE_begin + net_income − RE_end)` where
`RE_begin` is `p`'s retained earnings, and `RE_end` and `net_income` are
`y`'s own values; consequently dividends are never negative. -/
theorem calc3_dividends_rollforward (tb gl : Option (List TxnRow)) (n : Nat)
    (out : FinData) (i : Nat) (p y : Int)
    (hok : calculate_3statements_from_tb_gl tb gl n = .ok out)
    (hp : (yearsOutOf tb gl n).get? i = some p)
    (hy : (yearsOutOf tb gl n).get? (i + 1) = some y) :
    getK (getY out y) "dividends" 0 =
      max 0 (getK (getY out p) "retained_earnings" 0 +
        getK (getY out y) "net_income" 0 -
        getK (getY out y) "retained_earnings" 0) ∧
    0 ≤ getK (getY out y) "dividends" 0 := by
  have hstmt : stmtYearsOf tb gl n ≠ [] := by
    intro h
    rw [yearsOutOf_eq_cons, h] at hy
    rcases i with _ | j <;> simp at hy
  have hout : out = calc3Core tb gl n := calc3_ok_inversion tb gl n out hok hstmt
  rw [yearsOutOf_eq_cons] at hp hy
  have hnd : (year0Of tb gl n :: stmtYearsOf tb gl n).Nodup := by
    rw [← yearsOutOf_eq_cons]
    exact yearsOutOf_nodup tb gl n
  obtain ⟨cur, pri, heq, hcur, hpri⟩ := pairLoop_pair_spec divBody ["dividends"]
    divBody_frame (stmtYearsOf tb gl n)
    (defaultsLoop (stmtYearsOf tb gl n) (yearsOutOf tb gl n)
      (mergeLoop (tbFinOf tb) (glFinOf gl) (stmtYearsOf tb gl n)
        (yearsOutOf tb gl n) []))
    (year0Of tb gl n) i p y hnd hp hy
  rw [hout, calc3Core_eq]
  set fdD := defaultsLoop (stmtYearsOf tb gl n) (yearsOutOf tb gl n)
    (mergeLoop (tbFinOf tb) (glFinOf gl) (stmtYearsOf tb gl n)
      (yearsOutOf tb gl n) []) with hfdD
  set fd1 := pairLoop divBody fdD (year0Of tb gl n) (stmtYearsOf tb gl n)
    with hfd1
  have hdivs : (getY (pairLoop wcBody fd1 (year0Of tb gl n)
      (stmtYearsOf tb gl n)) y).lookup "dividends" =
      (getY fd1 y).lookup "dividends" :=
    pairLoop_frame wcBody wcFrameKeys wcBody_frame _ fd1 _ y _ (by decide)
  have hdivval : (getY fd1 y).lookup "dividends" =
      some (max 0 (getK pri "retained_earnings" 0 + getK cur "net_income" 0 -
        getK cur "retained_earnings" 0)) := by
    rw [hfd1, heq, divBody_lookup_dividends]
  have hREy : (getY (pairLoop wcBody fd1 (year0Of tb gl n)
      (stmtYearsOf tb gl n)) y).lookup "retained_earnings" =
      cur.lookup "retained_earnings" := by
    rw [pairLoop_frame wcBody wcFrameKeys wcBody_frame _ fd1 _ y _ (by decide),
      hfd1, pairLoop_frame divBody ["dividends"] divBody_frame _ fdD _ y _
        (by decide), hcur _ (by decide)]
  have hNIy : (getY (pairLoop wcBody fd1 (year0Of tb gl n)
      (stmtYearsOf tb gl n)) y).lookup "net_income" =
      cur.lookup "net_income" := by
    rw [pairLoop_frame wcBody wcFrameKeys wcBody_frame _ fd1 _ y _ (by decide),
      hfd1, pairLoop_frame divBody ["dividends"] divBody_frame _ fdD _ y _
        (by decide), hcur _ (by decide)]
  have hREp : (getY (pairLoop wcBody fd1 (year0Of tb gl n)
      (stmtYearsOf tb gl n)) p).lookup "retained_earnings" =
      pri.lookup "retained_earnings" := by
    rw [pairLoop_frame wcBody wcFrameKeys wcBody_frame _ fd1 _ p _ (by decide),
      hfd1, pairLoop_frame divBody ["dividends"] divBody_frame _ fdD _ p _
        (by decide), hpri _ (by decide)]
  have hmain : getK (getY (pairLoop wcBody fd1 (year0Of tb gl n)
      (stmtYearsOf tb gl n)) y) "dividends" 0 =
      max 0 (getK pri "retained_earnings" 0 + getK cur "net_income" 0 -
        getK cur "retained_earnings" 0) := by
    unfold getK
    rw [hdivs, hdivval, Option.getD_some]
    rfl
  constructor
  · unfold getK
    rw [hdivs, hdivval, Option.getD_some, hREy, hNIy, hREp]
    simp only [getK]
  · rw [hmain]
    exact le_max_left 0 _

/-- Witness for **C2** at the fixture: statement year 2019 with predecessor
Year0 2018. -/
theorem calc3_dividends_rollforward_witness :
    getK (getY (calc3Core (some tbRowsW) (some glRowsW) 3) 2019)
        "dividends" 0 =
      max 0 (getK (getY (calc3Core (some tbRowsW) (some glRowsW) 3) 2018)
          "retained_earnings" 0 +
        getK (getY (calc3Core (some tbRowsW) (some glRowsW) 3) 2019)
          "net_income" 0 -
        getK (getY (calc3Core (some tbRowsW) (some glRowsW) 3) 2019)
          "retained_earnings" 0) ∧
    0 ≤ getK (getY (calc3Core (some tbRowsW) (some glRowsW) 3) 2019)
        "dividends" 0 :=
  calc3_dividends_rollforward (some tbRowsW) (some glRowsW) 3
    (calc3Core (some tbRowsW) (some glRowsW) 3) 0 2018 2019
    (by rfl) (by rfl) (by rfl)

theorem calcFS_eq_cons (rows : List TxnRow) (tbf : Bool) (y0 : Int)
    (rest : List Int) (h : sortedDedup (rows.map (·.year)) = y0 :: rest) :
    calculate_financial_statements rows tbf =
      pairLoop legacyDeltaBody
        ((y0 :: rest).map (fun y => (y, statementFor rows tbf y))) y0 rest := by
  unfold calculate_financial_statements
  rw [h]

/-- **C4**: in both cash-flow derivations — the TB+GL merged path and the
single-source legacy path — every working-capital delta of a year with a
predecessor follows the indirect-method sign convention given by the
`wc_keys` table (sign −1 for the four asset categories, +1 for the six
liability categories, applied to current minus prior), and capex equals
minus the change in gross PPE. -/
theorem cashflow_delta_sign_convention :
    (∀ (tb gl : Option (List TxnRow)) (n : Nat) (out : FinData) (i : Nat)
      (p y : Int),
      calculate_3statements_from_tb_gl tb gl n = .ok out →
      (yearsOutOf tb gl n).get? i = some p →
      (yearsOutOf tb gl n).get? (i + 1) = some y →
      (∀ t ∈ wc_keys, getK (getY out y) t.2.1 0 =
        t.2.2 * (getK (getY out y) t.1 0 - getK (getY out p) t.1 0)) ∧
      getK (getY out y) "capex" 0 =
        -(getK (getY out y) "ppe_gross" 0 - getK (getY out p) "ppe_gross" 0)) ∧
    (∀ (rows : List TxnRow) (tbf : Bool) (i : Nat) (p y : Int),
      (sortedDedup (rows.map (·.year))).get? i = some p →
      (sortedDedup (rows.map (·.year))).get? (i + 1) = some y →
      (∀ t ∈ wc_keys,
        getK (getY (calculate_financial_statements rows tbf) y) t.2.1 0 =
          t.2.2 * (getK (getY (calculate_financial_statements rows tbf) y) t.1 0 -
            getK (getY (calculate_financial_statements rows tbf) p) t.1 0)) ∧
      getK (getY (calculate_financial_statements rows tbf) y) "capex" 0 =
        -(getK (getY (calculate_financial_statements rows tbf) y) "ppe_gross" 0 -
          getK (getY (calculate_financial_statements rows tbf) p) "ppe_gross" 0)) := by
  constructor
  · intro tb gl n out i p y hok hp hy
    have hstmt : stmtYearsOf tb gl n ≠ [] := by
      intro h
      rw [yearsOutOf_eq_cons, h] at hy
      rcases i with _ | j <;> simp at hy
    have hout : out = calc3Core tb gl n :=
      calc3_ok_inversion tb gl n out hok hstmt
    rw [yearsOutOf_eq_cons] at hp hy
    have hnd : (year0Of tb gl n :: stmtYearsOf tb gl n).Nodup := by
      rw [← yearsOutOf_eq_cons]
      exact yearsOutOf_nodup tb gl n
    set fdD := defaultsLoop (stmtYearsOf tb gl n) (yearsOutOf tb gl n)
      (mergeLoop (tbFinOf tb) (glFinOf gl) (stmtYearsOf tb gl n)
        (yearsOutOf tb gl n) []) with hfdD
    set fd1 := pairLoop divBody fdD (year0Of tb gl n) (stmtYearsOf tb gl n)
      with hfd1
    obtain ⟨cur, pri, heq, hcur, hpri⟩ := pairLoop_pair_spec wcBody wcFrameKeys
      wcBody_frame (stmtYearsOf tb gl n) fd1 (year0Of tb gl n) i p y hnd hp hy
    have houtY : getY out y =
        wcBody cur pri := by
      rw [hout, calc3Core_eq, ← hfdD, ← hfd1]
      exact heq
    have hsrcY : ∀ k, k ∉ wcFrameKeys →
        (getY out y).lookup k = cur.lookup k := by
      intro k hk
      rw [hout, calc3Core_eq, ← hfdD, ← hfd1,
        pairLoop_frame wcBody wcFrameKeys wcBody_frame _ fd1 _ y _ hk,
        hcur _ hk]
    have hsrcP : ∀ k, k ∉ wcFrameKeys →
        (getY out p).lookup k = pri.lookup k := by
      intro k hk
      rw [hout, calc3Core_eq, ← hfdD, ← hfd1,
        pairLoop_frame wcBody wcFrameKeys wcBody_frame _ fd1 _ p _ hk,
        hpri _ hk]
    constructor
    · intro t ht
      have hsrc : t.1 ∉ wcFrameKeys := by fin_cases ht <;> decide
      unfold getK
      rw [houtY, wcBody_lookup_wc cur pri t ht, Option.getD_some,
        wcBody_frame cur pri _ hsrc, hsrcP _ hsrc]
      rfl
    · have hsrc : ("ppe_gross" : String) ∉ wcFrameKeys := by decide
      unfold getK
      rw [houtY, wcBody_lookup_capex, Option.getD_some,
        wcBody_frame cur pri _ hsrc, hsrcP _ hsrc]
      rfl
  · intro rows tbf i p y hp hy
    cases hyr : sortedDedup (rows.map (·.year)) with
    | nil =>
      rw [hyr] at hp
      rcases i with _ | j <;> simp at hp
    | cons y0 rest =>
      have hout := calcFS_eq_cons rows tbf y0 rest hyr
      have hnd : (y0 :: rest).Nodup := by
        rw [← hyr]
        exact sortedDedup_nodup _
      rw [hyr] at hp hy
      set base := (y0 :: rest).map (fun y => (y, statementFor rows tbf y))
        with hbase
      obtain ⟨cur, pri, heq, hcur, hpri⟩ := pairLoop_pair_spec legacyDeltaBody
        wcFrameKeys legacyDeltaBody_frame rest base y0 i p y hnd hp hy
      have houtY : getY (calculate_financial_statements rows tbf) y =
          legacyDeltaBody cur pri := by
        rw [hout]
        exact heq
      have hsrcY : ∀ k, k ∉ wcFrameKeys →
          (getY (calculate_financial_statements rows tbf) y).lookup k =
            cur.lookup k := by
        intro k hk
        rw [hout,
          pairLoop_frame legacyDeltaBody wcFrameKeys legacyDeltaBody_frame
            rest base y0 y _ hk, hcur _ hk]
      have hsrcP : ∀ k, k ∉ wcFrameKeys →
          (getY (calculate_financial_statements rows tbf) p).lookup k =
            pri.lookup k := by
        intro k hk
        rw [hout,
          pairLoop_frame legacyDeltaBody wcFrameKeys legacyDeltaBody_frame
            rest base y0 p _ hk, hpri _ hk]
      constructor
      · intro t ht
        have hsrc : t.1 ∉ wcFrameKeys := by fin_cases ht <;> decide
        unfold getK
        rw [houtY, legacyDeltaBody_lookup_wc cur pri t ht, Option.getD_some,
          legacyDeltaBody_frame cur pri _ hsrc, hsrcP _ hsrc]
        rfl
      · have hsrc : ("ppe_gross" : String) ∉ wcFrameKeys := by decide
        unfold getK
        rw [houtY, legacyDeltaBody_lookup_capex, Option.getD_some,
          legacyDeltaBody_frame cur pri _ hsrc, hsrcP _ hsrc]
        rfl

/-- Witness for **C4**: delta_ar at statement year 2019 of the merged
fixture, and capex at year 2019 of the single-source TB fixture. -/
theorem cashflow_delta_sign_convention_witness :
    getK (getY (calc3Core (some tbRowsW) (some glRowsW) 3) 2019)
        "delta_ar" 0 =
      -1 * (getK (getY (calc3Core (some tbRowsW) (some glRowsW) 3) 2019)
          "accounts_receivable" 0 -
        getK (getY (calc3Core (some tbRowsW) (some glRowsW) 3) 2018)
          "accounts_receivable" 0) ∧
    getK (getY (calculate_financial_statements tbRowsW true) 2019)
        "capex" 0 =
      -(getK (getY (calculate_financial_statements tbRowsW true) 2019)
          "ppe_gross" 0 -
        getK (getY (calculate_financial_statements tbRowsW true) 2018)
          "ppe_gross" 0) := by
  constructor
  · exact (cashflow_delta_sign_convention.1 (some tbRowsW) (some glRowsW) 3
      (calc3Core (some tbRowsW) (some glRowsW) 3) 0 2018 2019
      (by rfl) (by rfl) (by rfl)).1
      ("accounts_receivable", "delta_ar", -1) (by decide)
  · exact (cashflow_delta_sign_convention.2 tbRowsW true 0 2018 2019
      (by rfl) (by rfl)).2

/-! ## Reconciliation checker lemmas -/

theorem getY_cons_self (y : Int) (m : YearMap) (L : List (Int × YearMap)) :
    getY ((y, m) :: L) y = m := by
  unfold getY
  simp [List.lookup]

theorem getY_cons_ne (y y0 : Int) (m : YearMap) (L : List (Int × YearMap))
    (h : y ≠ y0) : getY ((y0, m) :: L) y = getY L y := by
  unfold getY
  have hb : (y == y0) = false := by simp [h]
  simp [List.lookup, hb]

theorem reconLoop_bs_check (fd : FinData) (reCalc : List (Int × ℚ))
    (prev : Int) (ys : List Int) (y : Int) (hy : y ∈ ys) :
    (getY (reconLoop fd reCalc prev ys) y).lookup "balance_sheet_check" =
      some ((gkd fd y "cash" + gkd fd y "accounts_receivable" +
          gkd fd y "inventory" + gkd fd y "prepaid_expenses" +
          gkd fd y "other_current_assets" +
          (gkd fd y "ppe_gross" - gkd fd y "accumulated_depreciation")) -
        ((gkd fd y "accounts_payable" + gkd fd y "accrued_payroll" +
          gkd fd y "deferred_revenue" + gkd fd y "interest_payable" +
          gkd fd y "other_current_liabilities" +
          gkd fd y "income_taxes_payable" + gkd fd y "long_term_debt") +
         (gkd fd y "common_stock" + gkd fd y "retained_earnings"))) := by
  induction ys generalizing reCalc prev with
  | nil => simp at hy
  | cons y0 rest ih =>
    rw [reconLoop]
    by_cases hyy : y = y0
    · subst hyy
      rw [getY_cons_self]
      rfl
    · rw [getY_cons_ne _ _ _ _ hyy]
      refine ih _ _ ?_
      rcases List.mem_cons.mp hy with h | h
      · exact absurd h hyy
      · exact h

theorem reconLoop_keysOf (fd : FinData) (reCalc : List (Int × ℚ))
    (prev : Int) (ys : List Int) :
    keysOf (reconLoop fd reCalc prev ys) = ys := by
  induction ys generalizing reCalc prev with
  | nil => rfl
  | cons y0 rest ih =>
    rw [reconLoop]
    simp only [keysOf, List.map_cons]
    rw [← keysOf]
    rw [ih]

theorem reconLoop_entry_keys (fd : FinData) (reCalc : List (Int × ℚ))
    (prev : Int) (ys : List Int) (e : Int × YearMap)
    (he : e ∈ reconLoop fd reCalc prev ys) :
    keysOf e.2 =
      [ "balance_sheet_check", "cashflow_check", "retained_earnings_calc",
        "retained_earnings_tb", "retained_earnings_diff" ] := by
  induction ys generalizing reCalc prev with
  | nil => simp [reconLoop] at he
  | cons y0 rest ih =>
    rw [reconLoop] at he
    rcases List.mem_cons.mp he with h | h
    · rw [h]
      rfl
    · exact ih _ _ h

/-- **C3**: for every statement year of the reconciliation result, the
stored `balance_sheet_check` equals assets minus the sum of liabilities and
TB equity, where assets are cash, receivables, inventory, prepaids, other
current assets and net PPE, liabilities are the seven liability line items,
and equity is common stock plus the year's own TB-reported retained
earnings (the roll-forward value appears only in the separate
`retained_earnings_calc`/`retained_earnings_diff` diagnostics). -/
theorem recon_balance_sheet_check_formula (fd : FinData) (y : Int)
    (hy : y ∈ (sortedDedup (keysOf fd)).tail) :
    (getY (compute_reconciliation_checks fd) y).lookup "balance_sheet_check" =
      some ((gkd fd y "cash" + gkd fd y "accounts_receivable" +
          gkd fd y "inventory" + gkd fd y "prepaid_expenses" +
          gkd fd y "other_current_assets" +
          (gkd fd y "ppe_gross" - gkd fd y "accumulated_depreciation")) -
        ((gkd fd y "accounts_payable" + gkd fd y "accrued_payroll" +
          gkd fd y "deferred_revenue" + gkd fd y "interest_payable" +
          gkd fd y "other_current_liabilities" +
          gkd fd y "income_taxes_payable" + gkd fd y "long_term_debt") +
         (gkd fd y "common_stock" + gkd fd y "retained_earnings"))) := by
  unfold compute_reconciliation_checks
  cases hyr : sortedDedup (keysOf fd) with
  | nil =>
    rw [hyr] at hy
    simp at hy
  | cons y0 rest =>
    rw [hyr] at hy
    simp only [List.tail_cons] at hy
    cases rest with
    | nil => simp at hy
    | cons y1 rest2 =>
      exact reconLoop_bs_check fd _ y0 (y1 :: rest2) y hy

/-- Witness for **C3** on the 4-year TB/GL fixture at statement year 2019. -/
theorem recon_balance_sheet_check_formula_witness :
    (getY (compute_reconciliation_checks
        (calc3Core (some tbRowsW) (some glRowsW) 3)) 2019).lookup
      "balance_sheet_check" =
      some ((gkd (calc3Core (some tbRowsW) (some glRowsW) 3) 2019 "cash" +
          gkd (calc3Core (some tbRowsW) (some glRowsW) 3) 2019 "accounts_receivable" +
          gkd (calc3Core (some tbRowsW) (some glRowsW) 3) 2019 "inventory" +
          gkd (calc3Core (some tbRowsW) (some glRowsW) 3) 2019 "prepaid_expenses" +
          gkd (calc3Core (some tbRowsW) (some glRowsW) 3) 2019 "other_current_assets" +
          (gkd (calc3Core (some tbRowsW) (some glRowsW) 3) 2019 "ppe_gross" -
            gkd (calc3Core (some tbRowsW) (some glRowsW) 3) 2019 "accumulated_depreciation")) -
        ((gkd (calc3Core (some tbRowsW) (some glRowsW) 3) 2019 "accounts_payable" +
          gkd (calc3Core (some tbRowsW) (some glRowsW) 3) 2019 "accrued_payroll" +
          gkd (calc3Core (some tbRowsW) (some glRowsW) 3) 2019 "deferred_revenue" +
          gkd (calc3Core (some tbRowsW) (some glRowsW) 3) 2019 "interest_payable" +
          gkd (calc3Core (some tbRowsW) (some glRowsW) 3) 2019 "other_current_liabilities" +
          gkd (calc3Core (some tbRowsW) (some glRowsW) 3) 2019 "income_taxes_payable" +
          gkd (calc3Core (some tbRowsW) (some glRowsW) 3) 2019 "long_term_debt") +
         (gkd (calc3Core (some tbRowsW) (some glRowsW) 3) 2019 "common_stock" +
          gkd (calc3Core (some tbRowsW) (some glRowsW) 3) 2019 "retained_earnings"))) :=
  recon_balance_sheet_check_formula
    (calc3Core (some tbRowsW) (some glRowsW) 3) 2019 (by decide)

/-- **C8**: the reconciliation checker is a total function of its input
(the embedding returns a value for every statement map, modelling that the
source never raises): with fewer than two years it returns the empty
mapping, otherwise it returns exactly one entry per statement year, and
every produced entry carries exactly the five numeric check keys. -/
theorem recon_total_behavior (fd : FinData) :
    ((sortedDedup (keysOf fd)).length < 2 →
      compute_reconciliation_checks fd = []) ∧
    keysOf (compute_reconciliation_checks fd) =
      (sortedDedup (keysOf fd)).tail ∧
    (∀ e ∈ compute_reconciliation_checks fd, keysOf e.2 =
      [ "balance_sheet_check", "cashflow_check", "retained_earnings_calc",
        "retained_earnings_tb", "retained_earnings_diff" ]) := by
  unfold compute_reconciliation_checks
  cases hyr : sortedDedup (keysOf fd) with
  | nil =>
    refine ⟨fun _ => rfl, rfl, ?_⟩
    intro e he
    simp at he
  | cons y0 rest =>
    cases rest with
    | nil =>
      refine ⟨fun _ => rfl, rfl, ?_⟩
      intro e he
      simp at he
    | cons y1 rest2 =>
      refine ⟨?_, ?_, ?_⟩
      · intro hlen
        simp at hlen
        omega
      · rw [reconLoop_keysOf]
        rfl
      · intro e he
        exact reconLoop_entry_keys fd _ y0 (y1 :: rest2) e he

/-- Witness for **C8**: the empty statement map yields the empty result. -/
theorem recon_total_behavior_witness :
    compute_reconciliation_checks ([] : FinData) = [] :=
  (recon_total_behavior []).1 (by decide)

/-! ## Aggregator key-set facts (C5) -/

theorem calcFS_eq_nil (rows : List TxnRow) (tbf : Bool)
    (h : sortedDedup (rows.map (·.year)) = []) :
    calculate_financial_statements rows tbf = [] := by
  unfold calculate_financial_statements
  rw [h]
  rfl

theorem legacyDeltaBody_isSome (cur pri : YearMap) (k : String)
    (h : (cur.lookup k).isSome) :
    ((legacyDeltaBody cur pri).lookup k).isSome := by
  unfold legacyDeltaBody
  exact lookup_dictUpdate_isSome _ _ _ h

theorem legacyDeltaBody_has_delta_keys (cur pri : YearMap) (k : String)
    (hk : k ∈ delta_item_keys) :
    ((legacyDeltaBody cur pri).lookup k).isSome := by
  unfold legacyDeltaBody
  apply lookup_dictUpdate_keys_isSome
  simp only [keysOf, List.map_cons, List.map_nil]
  fin_cases hk <;> decide

/-- **C5 (counterexample)**: for a single-year input, the produced
YearStatement for that year (the earliest year) does not contain the
cash-flow delta keys: `delta_ar` is absent, contradicting the claim that
every one of the ~40 line-item keys is present for every year. -/
theorem aggregator_first_year_missing_delta_key :
    keysOf (calculate_financial_statements [⟨2020, 0, "cash", 5, 0⟩] true) =
      [2020] ∧
    (getY (calculate_financial_statements [⟨2020, 0, "cash", 5, 0⟩] true)
      2020).lookup "delta_ar" = none := by
  exact ⟨rfl, rfl⟩

/-- **C5 (amended)**: the single-source aggregator produces exactly one
YearStatement per distinct year of the date-filtered input (its key list is
the sorted deduplicated year list, without repetition), every produced year
contains all 25 Income-Statement and Balance-Sheet line-item keys, and the
13 cash-flow delta keys are present exactly for years with a preceding year
in the output — they are absent from the earliest year. -/
theorem aggregator_output_keys (rows : List TxnRow) (tbf : Bool) :
    keysOf (calculate_financial_statements rows tbf) =
      sortedDedup (rows.map (·.year)) ∧
    (keysOf (calculate_financial_statements rows tbf)).Nodup ∧
    (∀ y : Int, y ∈ keysOf (calculate_financial_statements rows tbf) ↔
      y ∈ rows.map (·.year)) ∧
    (∀ y ∈ sortedDedup (rows.map (·.year)), ∀ k ∈ base_item_keys,
      ((getY (calculate_financial_statements rows tbf) y).lookup k).isSome) ∧
    (∀ (y0 : Int) (rest : List Int),
      sortedDedup (rows.map (·.year)) = y0 :: rest →
      ∀ k ∈ delta_item_keys,
        (getY (calculate_financial_statements rows tbf) y0).lookup k = none) ∧
    (∀ (i : Nat) (p y : Int),
      (sortedDedup (rows.map (·.year))).get? i = some p →
      (sortedDedup (rows.map (·.year))).get? (i + 1) = some y →
      ∀ k ∈ delta_item_keys,
        ((getY (calculate_financial_statements rows tbf) y).lookup k).isSome) := by
  have hkeys : keysOf (calculate_financial_statements rows tbf) =
      sortedDedup (rows.map (·.year)) := by
    cases hyr : sortedDedup (rows.map (·.year)) with
    | nil =>
      rw [calcFS_eq_nil rows tbf hyr]
      rfl
    | cons y0 rest =>
      rw [calcFS_eq_cons rows tbf y0 rest hyr]
      rw [pairLoop_keysOf]
      · exact keysOf_map_pair _ _
      · intro y hy
        rw [keysOf_map_pair]
        exact List.mem_cons_of_mem _ hy
  refine ⟨hkeys, ?_, ?_, ?_, ?_, ?_⟩
  · rw [hkeys]
    exact sortedDedup_nodup _
  · intro y
    rw [hkeys]
    exact mem_sortedDedup _ y
  · intro y hy k hk
    cases hyr : sortedDedup (rows.map (·.year)) with
    | nil =>
      rw [hyr] at hy
      simp at hy
    | cons y0 rest =>
      rw [calcFS_eq_cons rows tbf y0 rest hyr]
      apply pairLoop_isSome legacyDeltaBody legacyDeltaBody_isSome
      rw [hyr] at hy
      have hlk : ((y0 :: rest).map
          (fun y => (y, statementFor rows tbf y))).lookup y =
          some (statementFor rows tbf y) := lookup_map_pair_mem _ _ y hy
      unfold getY
      rw [hlk]
      exact statementFor_base_isSome rows tbf y k hk
  · intro y0 rest hyr k hk
    have hnd : (y0 :: rest).Nodup := by
      rw [← hyr]
      exact sortedDedup_nodup _
    rw [calcFS_eq_cons rows tbf y0 rest hyr,
      pairLoop_getY_notmem _ _ _ _ _ (List.nodup_cons.mp hnd).1]
    have hlk : ((y0 :: rest).map
        (fun y => (y, statementFor rows tbf y))).lookup y0 =
        some (statementFor rows tbf y0) :=
      lookup_map_pair_mem _ _ y0 (List.mem_cons_self _ _)
    unfold getY
    rw [hlk]
    exact statementFor_delta_none rows tbf y0 k hk
  · intro i p y hp hy k hk
    cases hyr : sortedDedup (rows.map (·.year)) with
    | nil =>
      rw [hyr] at hp
      rcases i with _ | j <;> simp at hp
    | cons y0 rest =>
      have hnd : (y0 :: rest).Nodup := by
        rw [← hyr]
        exact sortedDedup_nodup _
      rw [hyr] at hp hy
      obtain ⟨cur, pri, heq, hcur, hpri⟩ := pairLoop_pair_spec legacyDeltaBody
        wcFrameKeys legacyDeltaBody_frame rest
        ((y0 :: rest).map (fun y => (y, statementFor rows tbf y))) y0 i p y
        hnd hp hy
      rw [calcFS_eq_cons rows tbf y0 rest hyr, heq]
      exact legacyDeltaBody_has_delta_keys cur pri k hk

/-- Witness for **C5 (amended)** on the 4-year TB fixture: year 2018 has
the base key `cash` and lacks `delta_ar`; year 2019 has `delta_ar`. -/
theorem aggregator_output_keys_witness :
    ((getY (calculate_financial_statements tbRowsW true) 2018).lookup
      "cash").isSome ∧
    (getY (calculate_financial_statements tbRowsW true) 2018).lookup
      "delta_ar" = none ∧
    ((getY (calculate_financial_statements tbRowsW true) 2019).lookup
      "delta_ar").isSome :=
  ⟨(aggregator_output_keys tbRowsW true).2.2.2.1 2018 (by decide) "cash"
      (by decide),
   (aggregator_output_keys tbRowsW true).2.2.2.2.1 2018 [2019, 2020, 2021]
      (by decide) "delta_ar" (by decide),
   (aggregator_output_keys tbRowsW true).2.2.2.2.2 0 2018 2019 (by rfl)
      (by rfl) "delta_ar" (by decide)⟩

/-! ## Merge overlay facts (C10) -/

/-- **C10**: in the merged dictionary built by the TB+GL merge loop (before
the ensure-keys, dividend and delta passes), every statement year takes the
nine Income-Statement keys exclusively from the GL statements — each is
present and equals the GL value, defaulting to 0.0 when the GL source lacks
the year or the key, overwriting any TB value — while every other key of a
statement year, and every key of a non-statement year (Year0), is bound
exactly as in the TB statement for that year; the GL overlay never touches
a non-Income-Statement key. -/
theorem merge_gl_overlay_frame (tbFin glFin : FinData) (stmt ys : List Int)
    (y : Int) (hy : y ∈ ys)
    (htb : (keysOf (getY tbFin y)).Nodup) :
    (y ∈ stmt →
      (∀ k ∈ is_keys,
        (getY (mergeLoop tbFin glFin stmt ys []) y).lookup k =
          some (getK (getY glFin y) k 0)) ∧
      (∀ k, k ∉ is_keys →
        (getY (mergeLoop tbFin glFin stmt ys []) y).lookup k =
          (getY tbFin y).lookup k)) ∧
    (y ∉ stmt →
      ∀ k, (getY (mergeLoop tbFin glFin stmt ys []) y).lookup k =
        (getY tbFin y).lookup k) := by
  have hmem := mergeLoop_getY_mem tbFin glFin stmt ys [] y hy
  rw [hmem]
  unfold mergeYearMap
  have hbase : ∀ k, (dictUpdate [] (getY tbFin y)).lookup k =
      (getY tbFin y).lookup k := by
    intro k
    rw [lookup_dictUpdate _ _ k htb]
    cases h : (getY tbFin y).lookup k <;> simp [h, List.lookup]
  constructor
  · intro hstmt
    rw [if_pos hstmt]
    have hglnd : (keysOf (is_keys.map
        (fun k => (k, getK (getY glFin y) k 0)))).Nodup := by
      rw [keysOf_map_pair]
      decide
    constructor
    · intro k hk
      rw [lookup_dictUpdate _ _ k hglnd, lookup_map_pair_mem is_keys _ k hk]
    · intro k hk
      have hnone : (is_keys.map
          (fun k => (k, getK (getY glFin y) k 0))).lookup k = none := by
        apply lookup_eq_none_of_notmem
        rw [keysOf_map_pair]
        exact hk
      rw [lookup_dictUpdate _ _ k hglnd, hnone]
      exact hbase k
  · intro hstmt
    rw [if_neg hstmt]
    exact hbase

/-- TB fixture for the merge-overlay witness: year 2018 with a cash balance
and a stray TB revenue value that the GL overlay must overwrite in
statement years. -/
def tbMergeW : FinData :=
  [ (2018, [("cash", 10), ("revenue", 7)]),
    (2019, [("cash", 12), ("revenue", 7)]) ]

/-- GL fixture for the merge-overlay witness: only year 2019, only revenue. -/
def glMergeW : FinData := [(2019, [("revenue", 5)])]

/-- Witness for **C10**: in the merged fixture, statement year 2019 takes
`revenue` from GL (5, overwriting TB's 7) and keeps `cash` from TB, while
non-statement Year0 2018 keeps its TB `revenue`. -/
theorem merge_gl_overlay_frame_witness :
    (getY (mergeLoop tbMergeW glMergeW [2019] [2018, 2019] []) 2019).lookup
      "revenue" = some 5 ∧
    (getY (mergeLoop tbMergeW glMergeW [2019] [2018, 2019] []) 2019).lookup
      "cash" = some 12 ∧
    (getY (mergeLoop tbMergeW glMergeW [2019] [2018, 2019] []) 2018).lookup
      "revenue" = some 7 := by
  have h19 := merge_gl_overlay_frame tbMergeW glMergeW [2019] [2018, 2019]
    2019 (by decide) (by decide)
  have h18 := merge_gl_overlay_frame tbMergeW glMergeW [2019] [2018, 2019]
    2018 (by decide) (by decide)
  refine ⟨?_, ?_, ?_⟩
  · rw [(h19.1 (by decide)).1 "revenue" (by decide)]
    decide
  · rw [(h19.1 (by decide)).2 "cash" (by decide)]
    decide
  · rw [h18.2 (by decide) "revenue"]
    decide
